import Mathlib

/-!
Verification of the review-to-prompt context pipeline and response
post-processing chain of the anime-roast-generator backend.

The Python sources under `src/backend/` are shallowly embedded here:
strings are `String` / `List Char`, Python `re` substitutions are
modelled by explicit left-to-right, non-overlapping matchers, numeric
values (review ratings, confidence scores, normalized anime scores) are
embedded as `Int` / `ℚ` (exact arithmetic in place of IEEE doubles; all
numbers occurring in the code are short decimals, where the two agree),
and fallible operations return `Option`.
-/

namespace Roast

/-! ### Basic character / string utilities

Python semantics restricted to ASCII text (the analyzer vocabulary and
all patterns in the source are ASCII): `\w` is `[A-Za-z0-9_]`, `\s` is
`[ \t\n\r\x0b\x0c]`, `str.lower` maps `A`-`Z` to `a`-`z`. -/

def isWordChar (c : Char) : Bool :=
  (('a' ≤ c && c ≤ 'z') || ('A' ≤ c && c ≤ 'Z') || ('0' ≤ c && c ≤ '9') || c = '_')

def isSpaceChar (c : Char) : Bool :=
  (c = ' ' || c = '\t' || c = '\n' || c = '\r' || c = '\x0b' || c = '\x0c')

def isDigitChar (c : Char) : Bool :=
  ('0' ≤ c && c ≤ '9')

def isAlphaChar (c : Char) : Bool :=
  (('a' ≤ c && c ≤ 'z') || ('A' ≤ c && c ≤ 'Z'))

def lowerChar (c : Char) : Char :=
  if 'A' ≤ c && c ≤ 'Z' then Char.ofNat (c.toNat + 32) else c

def upperChar (c : Char) : Char :=
  if 'a' ≤ c && c ≤ 'z' then Char.ofNat (c.toNat - 32) else c

def lowerL (l : List Char) : List Char := l.map lowerChar

/-- Python `str.lower()`. -/
def lowerStr (s : String) : String := ⟨lowerL s.data⟩

/-- `needle.isPrefixOf hay` on character lists (decidable, executable). -/
def prefixOfL (n h : List Char) : Bool := List.isPrefixOf n h

/-- Python `needle in hay` substring test on character lists. -/
def containsSubL (n h : List Char) : Bool :=
  match h with
  | [] => prefixOfL n []
  | _ :: t => prefixOfL n h || containsSubL n t

/-- Python `needle in hay` substring test on strings. -/
def containsSubStr (n h : String) : Bool := containsSubL n.data h.data

/-- Python `hay.startswith needle` on strings. -/
def strStartsWith (n h : String) : Bool := prefixOfL n.data h.data

/-- Python `str.strip()`: drop leading and trailing whitespace. -/
def stripL (l : List Char) : List Char :=
  ((l.dropWhile isSpaceChar).reverse.dropWhile isSpaceChar).reverse

def stripStr (s : String) : String := ⟨stripL s.data⟩

/-- Python `sep.join(parts)`. -/
def pyJoin (sep : String) : List String → String
  | [] => ""
  | [x] => x
  | x :: y :: rest => x ++ sep ++ pyJoin sep (y :: rest)

theorem length_dropWhile_le (p : Char → Bool) (l : List Char) :
    (l.dropWhile p).length ≤ l.length :=
  (List.dropWhile_sublist p).length_le

/-- Python `str.split()` with no argument: split on whitespace runs,
dropping empty pieces; `acc` holds the current word reversed. -/
def splitWsAux (acc : List Char) : List Char → List (List Char)
  | [] => if acc = [] then [] else [acc.reverse]
  | c :: t =>
    if isSpaceChar c then
      if acc = [] then splitWsAux [] t else acc.reverse :: splitWsAux [] t
    else
      splitWsAux (c :: acc) t

def splitWsL (l : List Char) : List (List Char) := splitWsAux [] l

/-- Python `re.split(r"[.!?]+", text)`: split on runs of `. ! ?`,
keeping (possibly empty) pieces between runs; `acc` holds the current
piece reversed. -/
def isSentBreak (c : Char) : Bool := (c = '.' || c = '!' || c = '?')

def splitSentAux (fuel : Nat) (acc : List Char) (l : List Char) :
    List (List Char) :=
  match fuel, l with
  | _, [] => [acc.reverse]
  | 0, _ => [acc.reverse]
  | fuel + 1, c :: t =>
    if isSentBreak c then
      acc.reverse :: splitSentAux fuel [] (t.dropWhile isSentBreak)
    else
      splitSentAux fuel (c :: acc) t

/-- Each step consumes at least one character, so `l.length` fuel always
suffices (fuel keeps the recursion structural, hence kernel-reducible). -/
def splitSentencesL (l : List Char) : List (List Char) :=
  splitSentAux l.length [] l

/-- Python `str.replace(old, new)` specialised to replacing the single
character `\n` by a space (as used on example quotes). -/
def replaceNewlines (l : List Char) : List Char :=
  l.map (fun c => if c = '\n' then ' ' else c)

/-- Python `hay.count(needle)`: number of non-overlapping occurrences,
scanning left to right (needles here are always nonempty). -/
def countOccurAux (n : List Char) (fuel : Nat) (h : List Char) : Nat :=
  match fuel, h with
  | _, [] => 0
  | 0, _ => 0
  | fuel + 1, c :: t =>
    if prefixOfL n (c :: t) && 1 ≤ n.length then
      1 + countOccurAux n fuel ((c :: t).drop n.length)
    else
      countOccurAux n fuel t

def countOccurL (n : List Char) (h : List Char) : Nat :=
  countOccurAux n h.length h

/-! ### A small engine for the concrete `re` patterns of the source

Each Python pattern is embedded as a `Matcher`: given the character
preceding the current position (`none` at the start of the string, used
for `\b`) and the remaining suffix, it returns `some (n, repl)` when the
pattern matches a prefix of length `n ≥ 1` of the suffix, to be replaced
by `repl`.  `reSubL` then mirrors `re.sub`: scan left to right, replace
non-overlapping leftmost matches, continue after each match.  None of
the source's patterns can match the empty string, and for each of them
the greedy first parse either succeeds or no parse at this position
succeeds (established per matcher below), so this engine agrees with
Python's backtracking semantics on the embedded patterns. -/

def Matcher : Type := Option Char → List Char → Option (Nat × List Char)

def reSubL (m : Matcher) (fuel : Nat) (prev : Option Char) (l : List Char) :
    List Char :=
  match fuel, l with
  | _, [] => []
  | 0, l => l
  | fuel + 1, c :: rest =>
    match m prev (c :: rest) with
    | some (n, repl) =>
      if 1 ≤ n then
        repl ++ reSubL m fuel (some ((c :: rest).getD (n - 1) c)) ((c :: rest).drop n)
      else
        c :: reSubL m fuel (some c) rest
    | none => c :: reSubL m fuel (some c) rest

/-- Python `re.search(pattern, s) is not None` for a matcher. -/
def reSearchL (m : Matcher) (prev : Option Char) (l : List Char) : Bool :=
  match l with
  | [] => false
  | c :: rest => (m prev (c :: rest)).isSome || reSearchL m (some c) rest

/-- Python `re.findall` collecting the replacement component produced by
the matcher for each non-overlapping leftmost match (matchers used with
this function put the text of the relevant capture group there). -/
def reFindAllL (m : Matcher) (fuel : Nat) (prev : Option Char) (l : List Char) :
    List (List Char) :=
  match fuel, l with
  | _, [] => []
  | 0, _ => []
  | fuel + 1, c :: rest =>
    match m prev (c :: rest) with
    | some (n, payload) =>
      if 1 ≤ n then
        payload :: reFindAllL m fuel (some ((c :: rest).getD (n - 1) c)) ((c :: rest).drop n)
      else
        reFindAllL m fuel (some c) rest
    | none => reFindAllL m fuel (some c) rest

/-- `\b` between the previous character and a word character that the
pattern is about to consume (all embedded patterns start with a word
character, so the boundary holds iff the previous character is absent or
not a word character). -/
def boundaryBefore (prev : Option Char) : Bool :=
  match prev with
  | none => true
  | some c => !isWordChar c

/-- `\b` between a just-consumed last character and the rest of the
string (end of string counts as a non-word position). -/
def boundaryAfter (lastc : Char) (rest : List Char) : Bool :=
  match rest with
  | [] => isWordChar lastc
  | c :: _ => isWordChar lastc ≠ isWordChar c

/-- Consume a maximal nonempty run of ASCII digits (`\d+` — greedy; in
all embedded patterns the character following `\d+` is never a digit, so
no backtracking into the run is possible). -/
def takeDigits (l : List Char) : Option (Nat × List Char) :=
  let ds := l.takeWhile isDigitChar
  if ds.length = 0 then none else some (ds.length, l.drop ds.length)

/-- Consume a literal, case-sensitively (`ci = false`) or
case-insensitively (`ci = true`, as under `re.IGNORECASE`). -/
def takeLit (ci : Bool) (lit : List Char) (l : List Char) :
    Option (Nat × List Char) :=
  match lit, l with
  | [], rest => some (0, rest)
  | _ :: _, [] => none
  | a :: as, c :: cs =>
    if (if ci then lowerChar a = lowerChar c else a = c) then
      match takeLit ci as cs with
      | some (n, rest) => some (n + 1, rest)
      | none => none
    else
      none

/-- `s?\b` after the literal `review` (`reviews?\b`): if the next
character is an `s` (case-insensitively when `ci`), Python's greedy `s?`
takes it and requires a boundary after it; otherwise (or on the
backtrack, where the boundary between `w` and `s` fails anyway) the `s`
is not taken and the boundary is checked after the final `w`. Returns
how many extra characters are consumed. -/
def optSBoundary (ci : Bool) (lastc : Char) (rest : List Char) : Option Nat :=
  match rest with
  | [] => if boundaryAfter lastc [] then some 0 else none
  | c :: rest' =>
    if (if ci then lowerChar c = 's' else c = 's') then
      if boundaryAfter c rest' then some 1 else none
    else
      if boundaryAfter lastc rest then some 0 else none

/-- `\b` + literal + `\b`, the shape of the fixed-phrase patterns. -/
def matchPhrase (ci : Bool) (lit : String) : Matcher := fun prev l =>
  if boundaryBefore prev then
    match takeLit ci lit.data l with
    | some (n, rest) =>
      match lit.data.getLast? with
      | some lastc => if boundaryAfter lastc rest then some (n, []) else none
      | none => none
    | none => none
  else none

def orMatcher (m1 m2 : Matcher) : Matcher := fun p l =>
  match m1 p l with
  | some r => some r
  | none => m2 p l

/-- `\b\d+%` (roast_cleaner.py line 15). -/
def matchNumPct : Matcher := fun prev l =>
  if boundaryBefore prev then
    match takeDigits l with
    | some (n, rest) =>
      match rest with
      | '%' :: _ => some (n + 1, [])
      | _ => none
    | none => none
  else none

/-- `\b\d+ percent` (line 16, case-sensitive, no trailing boundary). -/
def matchNumPercentWord : Matcher := fun prev l =>
  if boundaryBefore prev then
    match takeDigits l with
    | some (n, rest) =>
      match takeLit false " percent".data rest with
      | some (k, _) => some (n + k, [])
      | none => none
    | none => none
  else none

/-- `\b\d+ reviews?\b` (line 19 case-sensitive; also used with
IGNORECASE by `has_statistics`, line 92). -/
def matchNumReviews (ci : Bool) : Matcher := fun prev l =>
  if boundaryBefore prev then
    match takeDigits l with
    | some (n, rest) =>
      match takeLit ci " review".data rest with
      | some (k, rest2) =>
        match optSBoundary ci 'w' rest2 with
        | some j => some (n + k + j, [])
        | none => none
      | none => none
    | none => none
  else none

/-- `\bout of \d+ reviews?\b` with IGNORECASE (line 18). -/
def matchOutOfReviews : Matcher := fun prev l =>
  if boundaryBefore prev then
    match takeLit true "out of ".data l with
    | some (k1, rest1) =>
      match takeDigits rest1 with
      | some (n, rest2) =>
        match takeLit true " review".data rest2 with
        | some (k2, rest3) =>
          match optSBoundary true 'w' rest3 with
          | some j => some (k1 + n + k2 + j, [])
          | none => none
        | none => none
      | none => none
    | none => none
  else none

/-- `\b\d+\.\d+/10\b` (line 21; also `has_statistics` line 94). -/
def matchDecimalOutOf10 : Matcher := fun prev l =>
  if boundaryBefore prev then
    match takeDigits l with
    | some (n1, rest1) =>
      match rest1 with
      | '.' :: rest2 =>
        match takeDigits rest2 with
        | some (n2, rest3) =>
          match takeLit false "/10".data rest3 with
          | some (k, rest4) =>
            if boundaryAfter '0' rest4 then some (n1 + 1 + n2 + k, []) else none
          | none => none
        | none => none
      | _ => none
    | none => none
  else none

/-- `\bscored \d+` (line 22, case-sensitive, no trailing boundary). -/
def matchScoredNum : Matcher := fun prev l =>
  if boundaryBefore prev then
    match takeLit false "scored ".data l with
    | some (k, rest) =>
      match takeDigits rest with
      | some (n, _) => some (k + n, [])
      | none => none
    | none => none
  else none

/-- `\brating of \d+` with IGNORECASE (line 23). -/
def matchRatingOfNum : Matcher := fun prev l =>
  if boundaryBefore prev then
    match takeLit true "rating of ".data l with
    | some (k, rest) =>
      match takeDigits rest with
      | some (n, _) => some (k + n, [])
      | none => none
    | none => none
  else none

/-- `\baccording to (the )?data\b` with IGNORECASE (line 25): the greedy
optional group tries `the data` first, then plain `data`. -/
def matchAccordingToData : Matcher := fun prev l =>
  if boundaryBefore prev then
    match takeLit true "according to ".data l with
    | some (k, rest) =>
      match takeLit true "the data".data rest with
      | some (k2, rest2) =>
        if boundaryAfter 'a' rest2 then some (k + k2, [])
        else
          match takeLit true "data".data rest with
          | some (k3, rest3) =>
            if boundaryAfter 'a' rest3 then some (k + k3, []) else none
          | none => none
      | none =>
        match takeLit true "data".data rest with
        | some (k3, rest3) =>
          if boundaryAfter 'a' rest3 then some (k + k3, []) else none
        | none => none
    | none => none
  else none

def matchStatisticsShow : Matcher := matchPhrase true "statistics show"

def matchDataIndicates : Matcher := matchPhrase true "data indicates"

def matchComingInAt : Matcher := matchPhrase true "coming in at"

def matchAnEarthShattering : Matcher := matchPhrase true "an earth-shattering"

def matchGlorious : Matcher := matchPhrase true "glorious"

def matchEarthShattering : Matcher := matchPhrase true "earth-shattering"

/-- `\bexactly\? Right\.\b` with IGNORECASE (line 38); the trailing `\b`
sits after `.`, so it requires a word character right after. -/
def matchExactlyRight : Matcher := matchPhrase true "exactly? Right."

/-- Backtracking for `[\'s]*\b`: try the longest run, then shorten it
from the right until the boundary after it holds. Returns the number of
run characters consumed. -/
def runBoundarySplitAux (fuel : Nat) (lastc : Char) (run rest : List Char) :
    Option Nat :=
  match fuel, run with
  | _, [] => if boundaryAfter lastc rest then some 0 else none
  | 0, _ => none
  | fuel + 1, c :: t =>
    if boundaryAfter ((c :: t).getLastD lastc) rest then some (c :: t).length
    else
      runBoundarySplitAux fuel lastc (c :: t).dropLast
        ((c :: t).getLastD lastc :: rest)

def runBoundarySplit (lastc : Char) (run rest : List Char) : Option Nat :=
  runBoundarySplitAux run.length lastc run rest

/-- `\bSOMEONE[\'s]*\b` with IGNORECASE, replaced by `someone`
(line 39). -/
def matchSomeoneShout : Matcher := fun prev l =>
  if boundaryBefore prev then
    match takeLit true "someone".data l with
    | some (k, rest) =>
      let run := rest.takeWhile (fun c => c = '\'' || lowerChar c = 's')
      match runBoundarySplit 'e' run (rest.drop run.length) with
      | some j => some (k + j, "someone".data)
      | none => none
    | none => none
  else none

def isPunctCl (c : Char) : Bool := (c = '.' || c = ',' || c = '!' || c = '?')

/-- `\s+` replaced by a single space (line 66). -/
def matchWsRun : Matcher := fun _ l =>
  let k := (l.takeWhile isSpaceChar).length
  if 1 ≤ k then some (k, [' ']) else none

/-- `\s+([.,!?])` replaced by the captured punctuation (line 67). -/
def matchWsPunct : Matcher := fun _ l =>
  let k := (l.takeWhile isSpaceChar).length
  if 1 ≤ k then
    match (l.drop k) with
    | c :: _ => if isPunctCl c then some (k + 1, [c]) else none
    | [] => none
  else none

/-- `([.,!?])\s*\1` replaced by the captured punctuation (line 68); the
backreference requires the same punctuation character again. -/
def matchPunctPair : Matcher := fun _ l =>
  match l with
  | c :: rest =>
    if isPunctCl c then
      let k := (rest.takeWhile isSpaceChar).length
      match rest.drop k with
      | d :: _ => if d = c then some (k + 2, [c]) else none
      | [] => none
    else none
  | [] => none

/-- `\(\s*\)` removed (line 71). -/
def matchEmptyParens : Matcher := fun _ l =>
  match l with
  | '(' :: rest =>
    let k := (rest.takeWhile isSpaceChar).length
    match rest.drop k with
    | ')' :: _ => some (k + 2, [])
    | _ => none
  | _ => none

/-- `\[\s*\]` removed (line 72). -/
def matchEmptyBrackets : Matcher := fun _ l =>
  match l with
  | '[' :: rest =>
    let k := (rest.takeWhile isSpaceChar).length
    match rest.drop k with
    | ']' :: _ => some (k + 2, [])
    | _ => none
  | _ => none

def runSub (m : Matcher) (l : List Char) : List Char := reSubL m l.length none l

def runSearch (m : Matcher) (l : List Char) : Bool := reSearchL m none l

/-! ### roast_cleaner.py — `RoastCleaner` -/

/-- `RoastCleaner.clean_roast` (roast_cleaner.py lines 42-80): the
substitutions of `STATISTICAL_PATTERNS` and `AWKWARD_REPLACEMENTS` in
source order, then whitespace/punctuation normalization, then strip.
The `logger.info` call on change (lines 77-78) has no effect on the
returned value and is not modelled. -/
def clean_roast (roast_text : String) : String :=
  let cleaned := roast_text.data
  -- STATISTICAL_PATTERNS, lines 13-32, in order
  let cleaned := runSub matchNumPct cleaned
  let cleaned := runSub matchNumPercentWord cleaned
  let cleaned := runSub matchOutOfReviews cleaned
  let cleaned := runSub (matchNumReviews false) cleaned
  let cleaned := runSub matchDecimalOutOf10 cleaned
  let cleaned := runSub matchScoredNum cleaned
  let cleaned := runSub matchRatingOfNum cleaned
  let cleaned := runSub matchAccordingToData cleaned
  let cleaned := runSub matchStatisticsShow cleaned
  let cleaned := runSub matchDataIndicates cleaned
  let cleaned := runSub matchComingInAt cleaned
  let cleaned := runSub matchAnEarthShattering cleaned
  let cleaned := runSub matchGlorious cleaned
  -- AWKWARD_REPLACEMENTS, lines 35-40, in dict insertion order
  let cleaned := runSub matchEarthShattering cleaned
  let cleaned := runSub matchGlorious cleaned
  let cleaned := runSub matchExactlyRight cleaned
  let cleaned := runSub matchSomeoneShout cleaned
  -- double spaces and awkward punctuation, lines 66-68
  let cleaned := runSub matchWsRun cleaned
  let cleaned := runSub matchWsPunct cleaned
  let cleaned := runSub matchPunctPair cleaned
  -- empty bracket pairs, lines 71-72
  let cleaned := runSub matchEmptyParens cleaned
  let cleaned := runSub matchEmptyBrackets cleaned
  ⟨stripL cleaned⟩

/-- The alternation `\b(according to (the )?data|statistics show|data
indicates)\b` with IGNORECASE (roast_cleaner.py line 98). -/
def matchStatPhraseAlt : Matcher :=
  orMatcher matchAccordingToData (orMatcher matchStatisticsShow matchDataIndicates)

/-- `RoastCleaner.has_statistics` (roast_cleaner.py lines 82-107). -/
def has_statistics (roast_text : String) : Bool :=
  runSearch matchNumPct roast_text.data
    || runSearch (matchNumReviews true) roast_text.data
    || runSearch matchDecimalOutOf10 roast_text.data
    || runSearch matchStatPhraseAlt roast_text.data
    || runSearch matchComingInAt roast_text.data

/-! ### Numbers in rating tokens

`float(claimed_rating)` and the arithmetic on it are embedded in `ℚ`:
every token the rating regex can capture is a finite decimal, which `ℚ`
represents exactly (IEEE rounding differs only beyond ~15 significant
digits). -/

def digitsToNat (l : List Char) : Nat :=
  l.foldl (fun a c => a * 10 + (c.toNat - '0'.toNat)) 0

/-- Value of a captured `\d+(?:\.\d+)?` numeral. -/
def decimalToRat (numeral : List Char) : ℚ :=
  let ip := numeral.takeWhile isDigitChar
  let rest := numeral.drop ip.length
  match rest with
  | '.' :: frac => (digitsToNat ip : ℚ) + (digitsToNat frac : ℚ) / (10 ^ frac.length)
  | _ => (digitsToNat ip : ℚ)

/-- Number of decimal digits needed to write `q` exactly (fuelled; every
captured token needs finitely many). -/
def decDigitsAux : Nat → ℚ → Nat
  | 0, _ => 0
  | fuel + 1, q => if q.den = 1 then 0 else 1 + decDigitsAux fuel (q * 10)

/-- Python `str(float(...))` for the nonnegative finite decimals that
rating tokens denote: minimal digits, at least one fractional digit
(`str(float("5")) = "5.0"`, `str(float("9.90")) = "9.9"`). -/
def pyFloatRepr (q : ℚ) : String :=
  let k := max (decDigitsAux 30 q) 1
  let scaled := (q * 10 ^ k).num.toNat
  let ip := scaled / 10 ^ k
  let fr := scaled % 10 ^ k
  let fs := toString fr
  toString ip ++ "." ++ ⟨List.replicate (k - fs.length) '0'⟩ ++ fs

/-- Python `f"{score / 10:.1f}"` for an integer AniList score. -/
def scoreDiv10Fmt (s : Nat) : String :=
  toString (s / 10) ++ "." ++ toString (s % 10)

/-! ### roast_validator.py — `RoastValidator` -/

/-- Core of `\b\d+(?:\.\d+)?/10\b` after the leading boundary: returns
(consumed length, the `\d+(?:\.\d+)?` numeral, i.e. capture group 1).
The greedy optional fraction needs no further backtracking: if a `.` and
digits follow the integer part, the fraction-less parse would need `/`
where the `.` stands, and shortening a maximal digit run always leaves a
digit where `/` or `.` is required. -/
def ratingToken (l : List Char) : Option (Nat × List Char) :=
  match takeDigits l with
  | some (n1, rest1) =>
    match rest1 with
    | '.' :: rest2 =>
      match takeDigits rest2 with
      | some (n2, rest3) =>
        match takeLit false "/10".data rest3 with
        | some (k, rest4) =>
          if boundaryAfter '0' rest4 then some (n1 + 1 + n2 + k, l.take (n1 + 1 + n2))
          else none
        | none => none
      | none => none
    | _ =>
      match takeLit false "/10".data rest1 with
      | some (k, rest4) =>
        if boundaryAfter '0' rest4 then some (n1 + k, l.take n1) else none
      | none => none
  | none => none

/-- `re.findall(r"\b(\d+(?:\.\d+)?)/10\b", roast_text)` payloads
(roast_validator.py line 90). -/
def matchRatingFind : Matcher := fun prev l =>
  if boundaryBefore prev then ratingToken l else none

def findRatingTokens (roast_text : String) : List (List Char) :=
  reFindAllL matchRatingFind roast_text.data.length none roast_text.data

/-- `re.sub(r"\b\d+(?:\.\d+)?/10\b", score_text, roast_text)`
(line 124). -/
def matchRatingSub (repl : List Char) : Matcher := fun prev l =>
  if boundaryBefore prev then
    match ratingToken l with
    | some (n, _) => some (n, repl)
    | none => none
  else none

/-- `re.sub(r"\s*\b\d+(?:\.\d+)?/10\b", "", roast_text)` (line 127): a
greedy whitespace run, then the token; with a nonempty run the `\b`
between whitespace and digit always holds, and no shorter run can
succeed since the next character would still be whitespace. -/
def matchRatingWsSub : Matcher := fun prev l =>
  let k := (l.takeWhile isSpaceChar).length
  if k = 0 then
    if boundaryBefore prev then
      match ratingToken l with
      | some (n, _) => some (n, [])
      | none => none
    else none
  else
    match ratingToken (l.drop k) with
    | some (n, _) => some (k + n, [])
    | none => none

/-- `anime_data.get("score", 0) / 10 if anime_data.get("score") else
None` (line 93-95): a score of `0` is falsy in Python and yields
`None`. -/
def actual_score_of : Option Nat → Option ℚ
  | some s => if s ≠ 0 then some ((s : ℚ) / 10) else none
  | none => none

/-- The review-context dictionaries consumed downstream (produced by
`format_enhanced_review_context`): only the fields that
`simple_context_builder.py` and `roast_validator.py` read are
modelled. -/
structure ComplaintInfo where
  category : String
  confidence : ℚ
  review_count : Nat
  examples : List String
deriving DecidableEq, Repr

structure ReviewContext where
  review_count : Nat
  verified_complaints : List ComplaintInfo
deriving DecidableEq, Repr

/-- Anime metadata dictionary: the fields read by the context builder
and the validator, absent keys as `none` / `[]` / defaults. -/
structure AnimeData where
  title_english : Option String := none
  title_romaji : Option String := none
  year : Option Nat := none
  episodes : Option Nat := none
  format : Option String := none
  studios : List String := []
  score : Option Nat := none
  controversyScore : Nat := 0
  source : String := ""
  relations : List (Option String) := []
deriving DecidableEq, Repr

/-- `RoastValidator._check_fake_ratings` (roast_validator.py lines
84-114). -/
def check_fake_ratings (roast_text : String) (anime_score : Option Nat) :
    List String :=
  let rating_matches := findRatingTokens roast_text
  match rating_matches with
  | [] => []
  | _ :: _ =>
    match anime_score with
    | some s =>
      if s ≠ 0 then
        rating_matches.filterMap (fun num =>
          let claimed := decimalToRat num
          if 1 < |claimed - (s : ℚ) / 10| then
            some ("FAKE RATING: Claimed " ++ pyFloatRepr claimed
              ++ "/10 but actual AniList score is " ++ scoreDiv10Fmt s ++ "/10")
          else none)
      else
        rating_matches.map (fun num =>
          "SUSPICIOUS RATING: Claimed " ++ pyFloatRepr (decimalToRat num)
            ++ "/10 but no source data available")
    | none =>
      rating_matches.map (fun num =>
        "SUSPICIOUS RATING: Claimed " ++ pyFloatRepr (decimalToRat num)
          ++ "/10 but no source data available")

/-- `RoastValidator._fix_fake_ratings` (lines 116-129); again `if
actual_score:` treats a score of `0` like a missing one. -/
def fix_fake_ratings (roast_text : String) (anime_score : Option Nat) : String :=
  match anime_score with
  | some s =>
    if s ≠ 0 then
      ⟨runSub (matchRatingSub (scoreDiv10Fmt s ++ "/10").data) roast_text.data⟩
    else
      ⟨runSub matchRatingWsSub roast_text.data⟩
  | none => ⟨runSub matchRatingWsSub roast_text.data⟩

/-- `category_keywords.get(category, [])` (lines 143-147). -/
def unverifiedKeywords (category : String) : List String :=
  if category = "pacing" then ["pacing", "slow", "dragging", "rushed"]
  else if category = "characters" then
    ["character", "protagonist", "unlikable", "shallow"]
  else if category = "ending" then ["ending", "finale", "conclusion", "fell off"]
  else []

/-- `RoastValidator._check_unverified_claims` (lines 131-164). -/
def check_unverified_claims (roast_text : String) (ctx : ReviewContext)
    (category : String) : List String :=
  let complaint_categories := ctx.verified_complaints.map (fun c => c.category)
  let roast_lower := lowerStr roast_text
  let mentions_category :=
    (unverifiedKeywords category).any (fun kw => containsSubStr kw roast_lower)
  let is_verified := complaint_categories.contains category
  if mentions_category && !is_verified then
    ["UNVERIFIED CLAIM: Roast mentions " ++ category
      ++ " issues but no verified complaints found in reviews"]
  else []

/-- A softener pattern: the regexes of `_soften_claim` contain only
literals, `(?:...)?` options and `(?:a|b)` literal alternations, so each
is expanded into the finite list of its alternatives in Python's
backtracking priority order (greedy option first, alternatives left to
right); the first alternative that is a prefix at the current position
wins, as in `re`. All are applied with IGNORECASE and no `\b`. -/
def matchLitAlts (lits : List String) (repl : String) : Matcher := fun _ l =>
  lits.findSome? (fun lit =>
    match takeLit true lit.data l with
    | some (n, _) => some (n, repl.data)
    | none => none)

/-- `(?:the )?pacing (?:is|feels?) (?:like|watching)` (line 172). -/
def softenPacing1 : Matcher :=
  matchLitAlts
    ["the pacing is like", "the pacing is watching",
     "the pacing feels like", "the pacing feels watching",
     "the pacing feel like", "the pacing feel watching",
     "pacing is like", "pacing is watching",
     "pacing feels like", "pacing feels watching",
     "pacing feel like", "pacing feel watching"]
    "some might say the pacing feels like"

/-- `(?:the )?pacing (?:is|was) (?:terrible|awful|bad)` (line 173). -/
def softenPacing2 : Matcher :=
  matchLitAlts
    ["the pacing is terrible", "the pacing is awful", "the pacing is bad",
     "the pacing was terrible", "the pacing was awful", "the pacing was bad",
     "pacing is terrible", "pacing is awful", "pacing is bad",
     "pacing was terrible", "pacing was awful", "pacing was bad"]
    "the pacing isn't for everyone"

/-- `(?:the )?characters? (?:are|is) (?:unlikable|shallow|bland)`
(line 176). -/
def softenChars1 : Matcher :=
  matchLitAlts
    ["the characters are unlikable", "the characters are shallow",
     "the characters are bland", "the characters is unlikable",
     "the characters is shallow", "the characters is bland",
     "the character are unlikable", "the character are shallow",
     "the character are bland", "the character is unlikable",
     "the character is shallow", "the character is bland",
     "characters are unlikable", "characters are shallow",
     "characters are bland", "characters is unlikable",
     "characters is shallow", "characters is bland",
     "character are unlikable", "character are shallow",
     "character are bland", "character is unlikable",
     "character is shallow", "character is bland"]
    "the characters might not click with everyone"

/-- `bar for likeability` (line 177). -/
def softenChars2 : Matcher :=
  matchLitAlts ["bar for likeability"] "character appeal varies"

/-- `(?:the )?ending (?:fell off|was disappointing)` (line 180). -/
def softenEnding1 : Matcher :=
  matchLitAlts
    ["the ending fell off", "the ending was disappointing",
     "ending fell off", "ending was disappointing"]
    "the ending divided some viewers"

/-- `(?:the )?finale (?:fell off|was disappointing)` (line 181). -/
def softenEnding2 : Matcher :=
  matchLitAlts
    ["the finale fell off", "the finale was disappointing",
     "finale fell off", "finale was disappointing"]
    "the finale got mixed reactions"

/-- `RoastValidator._soften_claim` (lines 166-189): the category's two
substitutions applied in dict order. -/
def soften_claim (roast_text : String) (category : String) : String :=
  if category = "pacing" then
    ⟨runSub softenPacing2 (runSub softenPacing1 roast_text.data)⟩
  else if category = "characters" then
    ⟨runSub softenChars2 (runSub softenChars1 roast_text.data)⟩
  else if category = "ending" then
    ⟨runSub softenEnding2 (runSub softenEnding1 roast_text.data)⟩
  else roast_text

/-- Meme phrase vocabulary of the validator (line 196). -/
def VALIDATOR_MEME_PHRASES : List String :=
  ["cope", "copium", "mid", "fell off", "peaked", "carried by"]

/-- `RoastValidator._check_meme_overuse` (lines 191-206):
`str.count`-style non-overlapping occurrence counts on the lowercased
roast. -/
def check_meme_overuse (roast_text : String) : List String :=
  let roast_lower := lowerStr roast_text
  let meme_count :=
    (VALIDATOR_MEME_PHRASES.map (fun p => countOccurL p.data roast_lower.data)).sum
  if 3 ≤ meme_count then
    ["MEME OVERUSE: Found " ++ toString meme_count
      ++ " meme phrases - roast may feel generic"]
  else []

/-- `RoastValidator.validate_and_fix_roast` (lines 34-82). -/
def validate_and_fix_roast (roast_text : String) (anime_data : AnimeData)
    (review_context : Option ReviewContext) : String × List String :=
  let issues : List String := []
  let fixed_roast := roast_text
  -- fake rating claims
  let rating_issues := check_fake_ratings fixed_roast anime_data.score
  let issues := issues ++ rating_issues
  let fixed_roast :=
    if rating_issues ≠ [] then fix_fake_ratings fixed_roast anime_data.score
    else fixed_roast
  -- unverified pacing / character / ending complaints (only with context)
  let (fixed_roast, issues) :=
    match review_context with
    | some ctx =>
      let pacing_issues := check_unverified_claims fixed_roast ctx "pacing"
      let issues := issues ++ pacing_issues
      let fixed_roast :=
        if pacing_issues ≠ [] then soften_claim fixed_roast "pacing" else fixed_roast
      let char_issues := check_unverified_claims fixed_roast ctx "characters"
      let issues := issues ++ char_issues
      let fixed_roast :=
        if char_issues ≠ [] then soften_claim fixed_roast "characters" else fixed_roast
      let ending_issues := check_unverified_claims fixed_roast ctx "ending"
      let issues := issues ++ ending_issues
      let fixed_roast :=
        if ending_issues ≠ [] then soften_claim fixed_roast "ending" else fixed_roast
      (fixed_roast, issues)
    | none => (fixed_roast, issues)
  -- meme overuse (informational, no rewrite)
  let meme_issues := check_meme_overuse fixed_roast
  let issues := issues ++ meme_issues
  (fixed_roast, issues)

/-! ### enhanced_review_analyzer.py — `EnhancedReviewAnalyzer` -/

/-- A review dictionary: the fields the analyzer reads; absent `body`
and `summary` keys behave as `""` (the source uses `.get(..., "")`),
an absent `rating` as `none`. -/
structure Review where
  body : String := ""
  summary : String := ""
  rating : Option Int := none
deriving DecidableEq, Repr

structure CategoryPatterns where
  keywords : List String
  positive_indicators : List String
  negative_indicators : List String
deriving DecidableEq, Repr

/-- `CRITICISM_PATTERNS` (enhanced_review_analyzer.py lines 28-209), as
an ordered association list (Python dicts iterate in insertion
order). -/
def CRITICISM_PATTERNS : List (String × CategoryPatterns) :=
  [("pacing",
    ⟨["pacing", "slow", "rushed", "dragging", "filler", "boring", "pace",
      "too long", "bloated"],
     ["perfect pacing", "well-paced", "never drags", "great pacing"],
     ["too slow", "drags", "rushed", "boring", "filler hell", "padding"]⟩),
   ("plot",
    ⟨["plot holes", "inconsistent", "makes no sense", "confusing",
      "predictable", "cliche", "trope", "formulaic", "asspull"],
     ["great story", "masterpiece", "well written", "engaging plot"],
     ["plot holes", "makes no sense", "asspull", "convenient", "lazy writing"]⟩),
   ("characters",
    ⟨["character development", "shallow", "one-dimensional", "annoying",
      "unlikable", "bland", "mary sue", "gary stu", "generic protagonist"],
     ["great characters", "character development", "complex", "relatable",
      "memorable"],
     ["shallow", "annoying", "bland", "no development", "generic"]⟩),
   ("animation",
    ⟨["animation", "art", "budget", "quality drop", "off-model",
      "still frames", "cgi", "sakuga"],
     ["beautiful animation", "stunning", "sakuga", "great art"],
     [" QUALITY", "budget cuts", "off-model", "still frames", "bad cgi"]⟩),
   ("ending",
    ⟨["ending", "finale", "conclusion", "rushed ending",
      "disappointing ending", "last episode"],
     ["satisfying ending", "perfect conclusion", "great finale"],
     ["rushed ending", "disappointing", "bad ending", "fell apart"]⟩),
   ("power_scaling",
    ⟨["power creep", "asspull", "plot armor", "convenient",
      "deus ex machina", "power scaling"],
     ["well explained", "consistent powers", "logical progression"],
     ["power creep", "plot armor", "asspull", "inconsistent"]⟩),
   ("adaptation",
    ⟨["adaptation", "read the manga", "skipped", "cut content",
      "rushed adaptation", "anime original"],
     ["great adaptation", "faithful", "improved"],
     ["butchered", "rushed adaptation", "skipped arcs", "read the manga"]⟩),
   ("fan_service",
    ⟨["fan service", "ecchi", "harem", "unnecessary scenes", "sexualization"],
     ["tasteful", "subtle", "rare"],
     ["too much fan service", "unnecessary", "creepy", "uncomfortable"]⟩)]

/-- `CRITICISM_PATTERNS.get(category, {})` — on an unknown category all
three phrase lists are empty. -/
def lookupPatterns (category : String) : CategoryPatterns :=
  match CRITICISM_PATTERNS.find? (fun p => p.1 = category) with
  | some p => p.2
  | none => ⟨[], [], []⟩

/-- `GENUINE_SENTIMENT_MARKERS` (lines 212-223). -/
def GENUINE_SENTIMENT_MARKERS : List String :=
  ["personally", "for me", "i felt", "i think", "in my opinion",
   "the reason", "because", "the problem is", "while", "although"]

/-- `sum(1 for ind in positive_indicators if ind in text_lower)`
(line 257). -/
def posIndicatorCount (text : String) (category : String) : Nat :=
  (lookupPatterns category).positive_indicators.countP
    (fun ind => containsSubStr ind (lowerStr text))

/-- `sum(1 for ind in negative_indicators if ind in text_lower)`
(line 258). -/
def negIndicatorCount (text : String) (category : String) : Nat :=
  (lookupPatterns category).negative_indicators.countP
    (fun ind => containsSubStr ind (lowerStr text))

/-- Number of genuine-sentiment marker phrases present (lines
290-294). -/
def genuineMarkerCount (text : String) : Nat :=
  GENUINE_SENTIMENT_MARKERS.countP (fun m => containsSubStr m (lowerStr text))

/-- `EnhancedReviewAnalyzer.analyze_sentiment_with_context` (lines
240-298). The `negation_count` of lines 260-271 is computed by the
source but never used, so it is not modelled. -/
def analyze_sentiment_with_context (text : String) (category : String) :
    String × ℚ :=
  if text = "" then ("neutral", 0)
  else
    let pos_count := posIndicatorCount text category
    let neg_count := negIndicatorCount text category
    let total_mentions := pos_count + neg_count
    if total_mentions = 0 then ("neutral", 0)
    else
      let sc : String × ℚ :=
        if pos_count < neg_count then
          ("negative", min ((1 : ℚ) / 2 + (neg_count : ℚ) / (total_mentions : ℚ) * (1 / 2)) 1)
        else if neg_count < pos_count then
          ("positive", min ((1 : ℚ) / 2 + (pos_count : ℚ) / (total_mentions : ℚ) * (1 / 2)) 1)
        else
          ("mixed", (1 : ℚ) / 2)
      if 0 < genuineMarkerCount text then (sc.1, min (sc.2 + 1 / 10) 1)
      else sc

/-- `EnhancedReviewAnalyzer.extract_specific_complaint` (lines 300-333):
first stripped sentence of eligible length containing a keyword both as
a substring of the sentence and of one of its whitespace-split words
(the inner word loop is what actually triggers the `return`, so
multi-word keywords never match a single word and fall through). -/
def extract_specific_complaint (text : String) (category : String) :
    Option String :=
  if text = "" then none
  else
    let keywords := (lookupPatterns category).keywords
    ((splitSentencesL text.data).map stripL).find?
      (fun s =>
        15 ≤ s.length && s.length ≤ 200 &&
        keywords.any (fun kw =>
          containsSubL kw.data (lowerL s) &&
          (splitWsL (lowerL s)).any (fun w => containsSubL kw.data w)))
    |>.map (fun s => (⟨s⟩ : String))

/-- One bucket of `category_data` (line 348): sentiment scores, up to 3
example quotes, and the number of contributing review iterations. -/
structure CategoryBucket where
  sentiment_scores : List ℚ
  examples : List String
  count : Nat
deriving DecidableEq, Repr

/-- `defaultdict` access: update the category's bucket, creating the
default bucket at the end on first access (insertion order
preserved). -/
def bucketUpdate (data : List (String × CategoryBucket)) (category : String)
    (f : CategoryBucket → CategoryBucket) : List (String × CategoryBucket) :=
  match data with
  | [] => [(category, f ⟨[], [], 0⟩)]
  | (c, b) :: rest =>
    if c = category then (c, f b) :: rest
    else (c, b) :: bucketUpdate rest category f

/-- The body of the `for category in ...CRITICISM_PATTERNS` loop (lines
357-385) for one review text and one category. -/
def processReviewCategory (min_confidence : ℚ)
    (data : List (String × CategoryBucket)) (text : String)
    (category : String) : List (String × CategoryBucket) :=
  match extract_specific_complaint text category with
  | some complaint_text =>
    let sc := analyze_sentiment_with_context complaint_text category
    if (sc.1 = "negative" || sc.1 = "mixed") && min_confidence ≤ sc.2 then
      bucketUpdate data category (fun b =>
        let clean_example : String := ⟨replaceNewlines (stripL complaint_text.data)⟩
        { sentiment_scores := b.sentiment_scores ++ [sc.2],
          count := b.count + 1,
          examples :=
            if b.examples.length < 3 then
              if b.examples.contains clean_example then b.examples
              else b.examples ++ [clean_example]
            else b.examples })
    else data
  | none => data

/-- `ExtractedComplaint` dataclass (lines 12-21). -/
structure ExtractedComplaint where
  category : String
  text : String
  sentiment : String
  confidence : ℚ
  review_count : Nat
  example_quotes : List String
deriving DecidableEq, Repr

/-- Sort key of line 407: `x.confidence * x.review_count`. -/
def complaintKey (c : ExtractedComplaint) : ℚ :=
  c.confidence * (c.review_count : ℚ)

/-- Stable descending insertion by `complaintKey`; Python `list.sort`
with `reverse=True` is a stable descending sort, and stable sorts by the
same key agree, so this insertion sort computes the same list. -/
def insertComplaintDesc (x : ExtractedComplaint) :
    List ExtractedComplaint → List ExtractedComplaint
  | [] => [x]
  | y :: ys =>
    if complaintKey x < complaintKey y then y :: insertComplaintDesc x ys
    else x :: y :: ys

def sortComplaintsDesc : List ExtractedComplaint → List ExtractedComplaint
  | [] => []
  | x :: rest => insertComplaintDesc x (sortComplaintsDesc rest)

/-- `EnhancedReviewAnalyzer.identify_verified_criticisms` (lines
335-409); `min_confidence` defaults to `0.6` in the source. -/
def identify_verified_criticisms (reviews : List Review)
    (min_confidence : ℚ := 3 / 5) : List ExtractedComplaint :=
  let category_data := reviews.foldl
    (fun data review =>
      let text := if review.body = "" then review.summary else review.body
      if text = "" then data
      else CRITICISM_PATTERNS.foldl
        (fun d p => processReviewCategory min_confidence d text p.1) data)
    []
  let verified_complaints := category_data.filterMap (fun cd =>
    if 2 ≤ cd.2.count then  -- must appear in at least 2 reviews (line 390)
      some { category := cd.1,
             text := "Multiple reviewers mentioned issues with " ++ cd.1,
             sentiment := "negative",
             confidence := cd.2.sentiment_scores.sum / (cd.2.sentiment_scores.length : ℚ),
             review_count := cd.2.count,
             example_quotes := cd.2.examples }
    else none)
  (sortComplaintsDesc verified_complaints).take 5

/-- Text-lexicon fallback of `calculate_sentiment_breakdown` (lines
456-484). -/
def text_sentiment_fallback (text : String) : String :=
  let text_lower := lowerStr text
  let negative_words :=
    ["bad", "terrible", "awful", "worst", "disappointing", "waste", "regret"]
  let positive_words :=
    ["great", "amazing", "best", "masterpiece", "excellent", "love"]
  let neg_count := negative_words.countP (fun w => containsSubStr w text_lower)
  let pos_count := positive_words.countP (fun w => containsSubStr w text_lower)
  if neg_count < pos_count then "positive"
  else if pos_count < neg_count then "negative"
  else "neutral"

/-- The per-review sentiment of `calculate_sentiment_breakdown` (lines
439-484): `if rating:` is a Python truthiness test, so a rating of `0`
falls through to the text fallback. -/
def review_sentiment (r : Review) : String :=
  let text := if r.body = "" then r.summary else r.body
  match r.rating with
  | some rating =>
    if rating ≠ 0 then
      if 8 ≤ rating then "very_positive"
      else if 6 ≤ rating then "positive"
      else if 4 ≤ rating then "mixed"
      else if 2 ≤ rating then "negative"
      else "very_negative"
    else text_sentiment_fallback text
  | none => text_sentiment_fallback text

/-- `EnhancedReviewAnalyzer.calculate_sentiment_breakdown` (lines
430-507), returning the result dictionary as an association list (the
empty-input dictionary has only three keys, as in the source). -/
def calculate_sentiment_breakdown (reviews : List Review) :
    List (String × ℚ) :=
  let sentiments := reviews.map review_sentiment
  let total := sentiments.length
  if total = 0 then [("positive", 0), ("mixed", 0), ("negative", 0)]
  else
    [("positive", ((sentiments.count "positive" + sentiments.count "very_positive" : Nat) : ℚ)),
     ("mixed", ((sentiments.count "mixed" + sentiments.count "neutral" : Nat) : ℚ)),
     ("negative", ((sentiments.count "negative" + sentiments.count "very_negative" : Nat) : ℚ)),
     ("total", (total : ℚ)),
     ("positive_pct",
       ((sentiments.count "positive" + sentiments.count "very_positive" : Nat) : ℚ)
         / (total : ℚ) * 100),
     ("negative_pct",
       ((sentiments.count "negative" + sentiments.count "very_negative" : Nat) : ℚ)
         / (total : ℚ) * 100)]

/-! ### simple_context_builder.py — `SimpleContextBuilder` -/

/-- Python falsy-`or` chain on optional strings:
`title.get("english") or title.get("romaji") or "Unknown"`. -/
def orStrFalsy (o : Option String) (d : String) : String :=
  match o with
  | some s => if s = "" then d else s
  | none => d

/-- Python `str.title()` (ASCII): uppercase each letter that follows a
non-letter, lowercase the other letters. -/
def pyTitleAux (prevAlpha : Bool) : List Char → List Char
  | [] => []
  | c :: t =>
    (if isAlphaChar c then (if prevAlpha then lowerChar c else upperChar c) else c)
      :: pyTitleAux (isAlphaChar c) t

def pyTitle (s : String) : String := ⟨pyTitleAux false s.data⟩

/-- `category.replace("_", " ")`. -/
def replaceUnderscores (s : String) : String :=
  ⟨s.data.map (fun c => if c = '_' then ' ' else c)⟩

/-- `MIN_REVIEWS_FOR_DATA` (simple_context_builder.py line 12). -/
def MIN_REVIEWS_FOR_DATA : Nat := 10

/-- `SimpleContextBuilder._build_basic_info` (lines 41-62); `get` +
truthiness on `year`, `episodes`, `format`. -/
def build_basic_info (anime_data : AnimeData) : String :=
  let display_title :=
    orStrFalsy anime_data.title_english (orStrFalsy anime_data.title_romaji "Unknown")
  let info := ["Anime: " ++ display_title]
  let info := info ++
    (match anime_data.year with
     | some y => if y ≠ 0 then ["Year: " ++ toString y] else []
     | none => [])
  let info := info ++
    (match anime_data.episodes with
     | some e => if e ≠ 0 then ["Episodes: " ++ toString e] else []
     | none => [])
  let info := info ++
    (match anime_data.format with
     | some f => if f ≠ "" then ["Format: " ++ f] else []
     | none => [])
  let info := info ++
    (if anime_data.studios ≠ [] then
      ["Studio: " ++ pyJoin ", " (anime_data.studios.take 2)]
     else [])
  pyJoin "\n" info

/-- `SimpleContextBuilder._build_reception` (lines 64-91); the float
comparisons `score / 10 >= 8.0` etc. are exact on integer scores. -/
def build_reception (anime_data : AnimeData) : String :=
  match anime_data.score with
  | none => "Reception: Unknown"
  | some score =>
    if score = 0 then "Reception: Unknown"
    else
      let score_10 : ℚ := (score : ℚ) / 10
      let reception :=
        if 8 ≤ score_10 then "Highly rated by the community"
        else if 7 ≤ score_10 then "Generally well-received"
        else if 6 ≤ score_10 then "Mixed reception with both fans and critics"
        else if 5 ≤ score_10 then "Below average reception"
        else "Poorly received by the community"
      let reception :=
        if 30 < anime_data.controversyScore then
          reception ++ " - polarizing opinions"
        else reception
      "Reception: " ++ reception

/-- `min(examples, key=lambda x: abs(len(x) - 80))` (line 109): the
first example whose length is closest to 80. -/
def minByLen80 : List String → String
  | [] => ""
  | x :: rest =>
    rest.foldl
      (fun best e =>
        if |(e.length : Int) - 80| < |(best.length : Int) - 80| then e else best)
      x

/-- `SimpleContextBuilder._build_review_themes` (lines 93-113): with no
complaints the function returns `""`; otherwise the header plus, for the
top 4 complaints that have examples, a titled category line and the
quote closest to 80 characters. -/
def build_review_themes (review_context : ReviewContext) : String :=
  let complaints := review_context.verified_complaints
  if complaints = [] then ""
  else
    let sections := ["=== COMMON THEMES IN REVIEWS ==="] ++
      (complaints.take 4).foldl
        (fun acc complaint =>
          if complaint.examples ≠ [] then
            acc ++
              ["\n" ++ pyTitle (replaceUnderscores complaint.category) ++ ":",
               "  \"" ++ minByLen80 complaint.examples ++ "\""]
          else acc)
        []
    pyJoin "\n" sections

/-- `SimpleContextBuilder._build_source_context` (lines 115-153); the
prequel-score loop of lines 145-148 has an empty body and is not
modelled. -/
def build_source_context (anime_data : AnimeData) : String :=
  let sections : List String :=
    if anime_data.source = "MANGA" then ["Source: Manga adaptation"]
    else if anime_data.source = "LIGHT_NOVEL" then
      ["Source: Light novel adaptation"]
    else if anime_data.source = "VISUAL_NOVEL" then
      ["Source: Visual novel adaptation"]
    else if anime_data.source = "WEB_NOVEL" then ["Source: Web novel adaptation"]
    else if anime_data.source = "ORIGINAL" then
      ["Source: Original anime (no source material)"]
    else []
  let sections := sections ++
    (if anime_data.relations ≠ [] then
      let prequels := anime_data.relations.filter
        (fun r => r = some "PREQUEL" || r = some "PARENT")
      if prequels ≠ [] then
        ["Note: This is a sequel in a franchise"] ++
          (let current_score := anime_data.score.getD 0
           if current_score ≠ 0 && current_score < 70 then
             ["Reception: Lower than previous seasons"]
           else [])
      else []
     else [])
  if sections ≠ [] then pyJoin "\n" sections else ""

/-- `SimpleContextBuilder.build_context` (lines 14-39): basic info,
reception, the review-themes section only when a review context is
supplied with `review_count ≥ MIN_REVIEWS_FOR_DATA`, then source
context, joined by blank lines. -/
def build_context (anime_data : AnimeData)
    (review_context : Option ReviewContext) : String :=
  let sections := [build_basic_info anime_data, build_reception anime_data]
  let sections := sections ++
    (match review_context with
     | some ctx =>
       if MIN_REVIEWS_FOR_DATA ≤ ctx.review_count then [build_review_themes ctx]
       else []
     | none => [])
  let sections := sections ++ [build_source_context anime_data]
  pyJoin "\n\n" sections

/-! ### main.py — response parsing and the generation loop

`json.loads` (stdlib) is embedded for the candidate strings that
`re.search(r"\{[^}]+\}", ...)` can produce: such a candidate contains
exactly one `}`, at its end, so a successful parse is a flat JSON object
whose values are strings, numbers, booleans, nulls or (possibly nested)
arrays of these — never nested objects. Numbers are represented in `ℚ`.
Escapes beyond `\" \\ \/ \b \f \n \r \t` and `\uXXXX`, and the
non-strict `NaN`/`Infinity` extensions, are modelled as parse failures;
the claims depend only on the failure path and the default-stats
fallback. -/

def jsonWs (c : Char) : Bool := (c = ' ' || c = '\t' || c = '\n' || c = '\r')

def jsonSkipWs (l : List Char) : List Char := l.dropWhile jsonWs

inductive JsonValue where
  | jnum (q : ℚ)
  | jstr (s : String)
  | jbool (b : Bool)
  | jnull
  | jarr (xs : List JsonValue)
deriving Repr

def hexDigitValue (c : Char) : Option Nat :=
  if isDigitChar c then some (c.toNat - 48)
  else
    let lc := lowerChar c
    if 'a' ≤ lc && lc ≤ 'f' then some (lc.toNat - 87) else none

/-- Translation table for the single-character JSON escapes. -/
def jsonEscapeTable : List (Char × Char) :=
  [('"', '"'), ('\\', '\\'), ('/', '/'), ('b', '\x08'), ('f', '\x0c'),
   ('n', '\n'), ('r', '\r'), ('t', '\t')]

/-- JSON string body after the opening quote; rejects raw control
characters (strict mode) and unknown escapes. -/
def parseJsonStringAux (fuel : Nat) (acc : List Char) (l : List Char) :
    Option (String × List Char) :=
  match fuel, l with
  | 0, _ => none
  | _, [] => none
  | fuel + 1, c :: rest =>
    if c = '"' then some (⟨acc.reverse⟩, rest)
    else if c = '\\' then
      match rest with
      | [] => none
      | 'u' :: rest2 =>
        match rest2 with
        | h1 :: h2 :: h3 :: h4 :: rest3 =>
          match hexDigitValue h1, hexDigitValue h2,
              hexDigitValue h3, hexDigitValue h4 with
          | some a, some b, some c', some d =>
            let v := a * 4096 + b * 256 + c' * 16 + d
            if v.isValidChar then
              parseJsonStringAux fuel (Char.ofNat v :: acc) rest3
            else none
          | _, _, _, _ => none
        | _ => none
      | e :: rest2 =>
        match jsonEscapeTable.lookup e with
        | some tr => parseJsonStringAux fuel (tr :: acc) rest2
        | none => none
    else if c.toNat < 32 then none
    else parseJsonStringAux fuel (c :: acc) rest

/-- JSON number: `-?int(.frac)?((e|E)(+|-)?digits)?` with the
leading-zero restriction; exact value in `ℚ`. -/
def parseJsonNumber (l : List Char) : Option (ℚ × List Char) :=
  let neg := prefixOfL ['-'] l
  let l1 := if neg then l.drop 1 else l
  let ip := l1.takeWhile isDigitChar
  if ip = [] then none
  else if 2 ≤ ip.length && ip.headD '0' = '0' then none
  else
    let l2 := l1.drop ip.length
    let (fr, l3) := match l2 with
      | '.' :: t =>
        let f := t.takeWhile isDigitChar
        (f, t.drop f.length)
      | _ => ([], l2)
    if l2 ≠ [] && l2.headD ' ' = '.' && fr = [] then none
    else
      let hasExp := match l3 with
        | 'e' :: _ => true
        | 'E' :: _ => true
        | _ => false
      let (expPart, l5) :=
        if hasExp then
          let t := l3.drop 1
          let (eneg, t1) := match t with
            | '+' :: t' => (false, t')
            | '-' :: t' => (true, t')
            | _ => (false, t)
          let ed := t1.takeWhile isDigitChar
          (some (eneg, ed), t1.drop ed.length)
        else (none, l3)
      match expPart with
      | some (_, []) => none
      | _ =>
        let mantissa : ℚ :=
          (digitsToNat ip : ℚ) + (digitsToNat fr : ℚ) / (10 ^ fr.length)
        let withExp : ℚ :=
          match expPart with
          | some (eneg, ed) =>
            if eneg then mantissa / (10 ^ digitsToNat ed)
            else mantissa * (10 ^ digitsToNat ed)
          | none => mantissa
        some (if neg then -withExp else withExp, l5)

/-- One fueled parser for JSON values and array-item lists (a single
structurally recursive function instead of a mutual pair, so that it
evaluates by kernel reduction): when `arrayItems` is `false` it parses
one value, when `true` a comma-separated item list up to `]`, returning
the parse as a `jarr` in that case. -/
def parseJsonRun (fuel : Nat) (arrayItems : Bool) (l : List Char) :
    Option (JsonValue × List Char) :=
  match fuel with
  | 0 => none
  | fuel + 1 =>
    if arrayItems then
      match parseJsonRun fuel false l with
      | some (v, rest) =>
        match jsonSkipWs rest with
        | ',' :: rest2 =>
          match parseJsonRun fuel true rest2 with
          | some (.jarr vs, rest3) => some (.jarr (v :: vs), rest3)
          | _ => none
        | ']' :: rest2 => some (.jarr [v], rest2)
        | _ => none
      | none => none
    else
      let l := jsonSkipWs l
      match l with
      | '"' :: rest =>
        match parseJsonStringAux rest.length [] rest with
        | some (s, rest2) => some (.jstr s, rest2)
        | none => none
      | '[' :: rest =>
        match jsonSkipWs rest with
        | ']' :: rest2 => some (.jarr [], rest2)
        | _ => parseJsonRun fuel true rest
      | _ =>
        match takeLit false "true".data l with
        | some (_, rest) => some (.jbool true, rest)
        | none =>
        match takeLit false "false".data l with
        | some (_, rest) => some (.jbool false, rest)
        | none =>
        match takeLit false "null".data l with
        | some (_, rest) => some (.jnull, rest)
        | none =>
        match parseJsonNumber l with
        | some (q, rest) => some (.jnum q, rest)
        | none => none

/-- A fuel of `4 * (input length) + 4` dominates the recursion depth of
any parse, successful or failing, so exhaustion is unreachable from the
call sites. -/
def parseJsonValue (fuel : Nat) (l : List Char) : Option (JsonValue × List Char) :=
  parseJsonRun fuel false l

/-- Members of a JSON object after the opening brace. -/
def parseJsonMembers (fuel : Nat) (l : List Char) :
    Option (List (String × JsonValue) × List Char) :=
  match fuel with
  | 0 => none
  | fuel + 1 =>
    let l := jsonSkipWs l
    match l with
    | '"' :: rest =>
      match parseJsonStringAux rest.length [] rest with
      | some (key, rest2) =>
        match jsonSkipWs rest2 with
        | ':' :: rest3 =>
          match parseJsonValue (4 * rest3.length + 4) rest3 with
          | some (v, rest4) =>
            match jsonSkipWs rest4 with
            | ',' :: rest5 =>
              match parseJsonMembers fuel rest5 with
              | some (ms, rest6) => some ((key, v) :: ms, rest6)
              | none => none
            | '}' :: rest5 => some ([(key, v)], rest5)
            | _ => none
          | none => none
        | _ => none
      | none => none
    | _ => none

/-- `json.loads` on a full candidate string, restricted to the object
shapes described above; `none` models a raised `JSONDecodeError`.
Duplicate keys are kept in order (the claims never read them). -/
def json_loads (s : String) : Option (List (String × JsonValue)) :=
  match jsonSkipWs s.data with
  | '{' :: rest =>
    match jsonSkipWs rest with
    | '}' :: tail => if jsonSkipWs tail = [] then some [] else none
    | _ =>
      match parseJsonMembers (rest.length + 1) rest with
      | some (ms, tail) => if jsonSkipWs tail = [] then some ms else none
      | none => none
  | _ => none

/-- `DEFAULT_STATS` (constants.py lines 169-176); `_get_default_stats`
returns a copy of this dictionary. -/
def DEFAULT_STATS : List (String × JsonValue) :=
  [("horniness_level", .jnum 50),
   ("plot_armor_thickness", .jnum 50),
   ("filler_hell", .jnum 50),
   ("power_creep", .jnum 50),
   ("cringe_factor", .jnum 50),
   ("fan_toxicity", .jnum 50)]

/-- Split at the first occurrence of `n` (`s.split(n, 1)` after an
`n in s` check): `some (before, after)` when present. -/
def splitOnceAux (n : List Char) (acc : List Char) (h : List Char) :
    Option (List Char × List Char) :=
  if prefixOfL n h then some (acc.reverse, h.drop n.length)
  else
    match h with
    | [] => none
    | c :: t => splitOnceAux n (c :: acc) t

def splitOnce (n s : String) : Option (String × String) :=
  match splitOnceAux n.data [] s.data with
  | some (b, a) => some (⟨b⟩, ⟨a⟩)
  | none => none

/-- `re.search(r"\{[^}]+\}", stats_part, re.DOTALL)`: the leftmost `{`
followed by at least one non-`}` character and then a `}` (`[^}]`
already crosses newlines, so `DOTALL` is inert). -/
def braceSearch (l : List Char) : Option (List Char) :=
  match l with
  | [] => none
  | '{' :: rest =>
    let taken := rest.takeWhile (fun c => c ≠ '}')
    if 1 ≤ taken.length && rest.drop taken.length ≠ [] then
      some ('{' :: (taken ++ ['}']))
    else braceSearch rest
  | _ :: rest => braceSearch rest

/-- `roast_part[6:]`. -/
def dropStr (n : Nat) (s : String) : String := ⟨s.data.drop n⟩

/-- `parse_roast_response` (main.py lines 223-247): split on the
`STATS:` marker, strip, drop a leading `ROAST:` label, extract the first
brace group and parse it; on a missing marker, missing brace group or
JSON failure (the `except` path) return the whole stripped input with
the default stats. -/
def parse_roast_response (response_text : String) :
    String × List (String × JsonValue) :=
  match splitOnce "STATS:" response_text with
  | some (before, after) =>
    let roast_part := stripStr before
    let stats_part := stripStr after
    let roast_part :=
      if strStartsWith "ROAST:" roast_part then stripStr (dropStr 6 roast_part)
      else roast_part
    match braceSearch stats_part.data with
    | some stats_json =>
      match json_loads ⟨stats_json⟩ with
      | some stats => (roast_part, stats)
      | none => (stripStr response_text, DEFAULT_STATS)
    | none => (stripStr response_text, DEFAULT_STATS)
  | none => (stripStr response_text, DEFAULT_STATS)

/-! ### main.py — the generation loop of `generate_roast` (lines
413-460)

The external generator call
`await asyncio.wait_for(asyncio.to_thread(model.generate_content,
prompt), ...)` is the only effectful step; it is abstracted as an oracle
giving the outcome of the n-th call: a timeout (`asyncio.TimeoutError`),
an empty/falsy response (`not response or not response.text`), or a
response text. The loop itself — `for attempt in range(max_retries +
1)`, its `continue`s, the `HTTPException`s raised on the final attempt,
the parse/clean steps and the prompt mutation — is embedded as a
recursion over the attempt counter that also records, per generator
call, the prompt used and the outcome received. -/

/-- `MAX_ROAST_RETRIES` (constants.py line 90). -/
def MAX_ROAST_RETRIES : Nat := 2

/-- The corrective instruction appended before a statistics retry
(main.py line 455). -/
def RETRY_CORRECTIVE : String :=
  "\n\nIMPORTANT: Remove all percentages, review counts, and exact scores. Write naturally without statistics."

inductive GenOutcome where
  | timeout
  | empty
  | text (s : String)
deriving DecidableEq, Repr

inductive LoopResult where
  /-- `HTTPException(status_code=504, ...)` on a final-attempt timeout. -/
  | timeout504
  /-- `HTTPException(status_code=500, ...)` on a final-attempt empty response. -/
  | emptyResponse500
  /-- `roast_text is None` after the loop (unreachable, kept for shape). -/
  | exhausted500
  | success (roast : String) (stats : List (String × JsonValue))

/-- One execution of the `for attempt in range(max_retries + 1)` loop
body onward, from attempt number `attempt` with the current `prompt`.
Returns the result together with the trace of generator calls made from
this point: `(prompt used, outcome)` per call. -/
def roastLoopAux (oracle : Nat → GenOutcome) (maxRetries : Nat)
    (prompt : String) (attempt : Nat) (fuel : Nat) :
    LoopResult × List (String × GenOutcome) :=
  match fuel with
  | 0 => (.exhausted500, [])
  | fuel + 1 =>
    match oracle attempt with
    | .timeout =>
      if attempt = maxRetries then (.timeout504, [(prompt, .timeout)])
      else
        let r := roastLoopAux oracle maxRetries prompt (attempt + 1) fuel
        (r.1, (prompt, .timeout) :: r.2)
    | .empty =>
      if attempt = maxRetries then (.emptyResponse500, [(prompt, .empty)])
      else
        let r := roastLoopAux oracle maxRetries prompt (attempt + 1) fuel
        (r.1, (prompt, .empty) :: r.2)
    | .text s =>
      let parsed := parse_roast_response s
      let current_roast := clean_roast parsed.1
      if has_statistics current_roast && attempt < maxRetries then
        let r := roastLoopAux oracle maxRetries (prompt ++ RETRY_CORRECTIVE) (attempt + 1) fuel
        (r.1, (prompt, .text s) :: r.2)
      else
        (.success current_roast parsed.2, [(prompt, .text s)])

/-- The whole loop as entered by `generate_roast`: attempt 0 with the
assembled prompt; the fuel `MAX_ROAST_RETRIES + 1` is exactly the
iteration count of `for attempt in range(max_retries + 1)`, and running
out of it is the post-loop `roast_text is None` check. -/
def generate_roast_loop (oracle : Nat → GenOutcome) (prompt : String) :
    LoopResult × List (String × GenOutcome) :=
  roastLoopAux oracle MAX_ROAST_RETRIES prompt 0 (MAX_ROAST_RETRIES + 1)

/-- The relation between consecutive generator calls that the loop
maintains: after a parsed and cleaned response, a further call happens
only when the cleaned roast still trips `has_statistics`, and then the
next prompt is the previous one with the corrective instruction
appended; after a timeout or empty response the prompt is unchanged. -/
def retryStep (a b : String × GenOutcome) : Prop :=
  match a.2 with
  | .text s =>
    has_statistics (clean_roast (parse_roast_response s).1) = true ∧
      b.1 = a.1 ++ RETRY_CORRECTIVE
  | .timeout => b.1 = a.1
  | .empty => b.1 = a.1

/-! ### Claim-side helper definitions -/

/-- The malformed-input condition of the spec for
`parse_roast_response`: no `STATS:` marker, or no brace group after it,
or a JSON parse failure. -/
def parse_malformed (t : String) : Bool :=
  match splitOnce "STATS:" t with
  | none => true
  | some (_, after) =>
    match braceSearch (stripStr after).data with
    | none => true
    | some j => (json_loads ⟨j⟩).isNone

/-- The genuine-opinion bonus step of the analyzer (lines 289-296), as
a function of the pre-bonus confidence. -/
def genuineBoost (text : String) (q : ℚ) : ℚ :=
  if 0 < genuineMarkerCount text then min (q + 1 / 10) 1 else q

/-- The rating-band bucketing exactly as the claim words it (for every
review with a numeric rating present): `≥8` very_positive, `≥6`
positive, `≥4` mixed, `≥2` negative, else very_negative. -/
def spec_rating_band (rating : Int) : String :=
  if 8 ≤ rating then "very_positive"
  else if 6 ≤ rating then "positive"
  else if 4 ≤ rating then "mixed"
  else if 2 ≤ rating then "negative"
  else "very_negative"

/-- The confidence formula exactly as the claim words it:
`min(0.5 + (majority_count / total_indicator_count) * 0.5, 1.0)`, with
the majority count read as the larger of the two indicator counts. -/
def spec_confidence_formula (pos neg : Nat) : ℚ :=
  min ((1 : ℚ) / 2 + ((max pos neg : Nat) : ℚ) / ((pos + neg : Nat) : ℚ) * (1 / 2)) 1

/-! ## Theorems -/

/-! ### General helper lemmas -/

theorem data_append (s t : String) : (s ++ t).data = s.data ++ t.data := rfl

theorem prefixOfL_append (n s t : List Char) (h : prefixOfL n s = true) :
    prefixOfL n (s ++ t) = true := by
  simp only [prefixOfL, List.isPrefixOf_iff_prefix] at h ⊢
  exact h.trans (List.prefix_append s t)

theorem containsSubL_append_right (n s t : List Char)
    (h : containsSubL n t = true) : containsSubL n (s ++ t) = true := by
  induction s with
  | nil => simpa using h
  | cons c cs ih =>
    simp only [List.cons_append, containsSubL]
    simp [ih]

theorem containsSubL_append_left (n s t : List Char)
    (h : containsSubL n s = true) : containsSubL n (s ++ t) = true := by
  induction s with
  | nil =>
    simp only [containsSubL, prefixOfL, List.isPrefixOf_iff_prefix,
      List.prefix_nil] at h
    subst h
    cases t with
    | nil => simp [containsSubL, prefixOfL]
    | cons c cs => simp [containsSubL, prefixOfL]
  | cons c cs ih =>
    simp only [containsSubL, Bool.or_eq_true] at h
    rcases h with h | h
    · simp only [List.cons_append, containsSubL, Bool.or_eq_true]
      exact Or.inl (prefixOfL_append _ _ _ h)
    · simp only [List.cons_append, containsSubL, Bool.or_eq_true]
      exact Or.inr (ih h)

theorem containsSubStr_append_left (n s t : String)
    (h : containsSubStr n s = true) : containsSubStr n (s ++ t) = true := by
  simp only [containsSubStr, data_append]
  exact containsSubL_append_left _ _ _ h

theorem containsSubStr_append_right (n s t : String)
    (h : containsSubStr n t = true) : containsSubStr n (s ++ t) = true := by
  simp only [containsSubStr, data_append]
  exact containsSubL_append_right _ _ _ h

theorem mem_insertComplaintDesc (c x : ExtractedComplaint)
    (l : List ExtractedComplaint) (h : c ∈ insertComplaintDesc x l) :
    c = x ∨ c ∈ l := by
  induction l with
  | nil => simpa [insertComplaintDesc] using h
  | cons y ys ih =>
    simp only [insertComplaintDesc] at h
    by_cases hk : complaintKey x < complaintKey y
    · rw [if_pos hk] at h
      rcases List.mem_cons.mp h with h | h
      · exact Or.inr (h ▸ List.mem_cons_self y ys)
      · rcases ih h with h | h
        · exact Or.inl h
        · exact Or.inr (List.mem_cons_of_mem y h)
    · rw [if_neg hk] at h
      rcases List.mem_cons.mp h with h | h
      · exact Or.inl h
      · exact Or.inr h

theorem mem_sortComplaintsDesc (c : ExtractedComplaint)
    (l : List ExtractedComplaint) (h : c ∈ sortComplaintsDesc l) : c ∈ l := by
  induction l with
  | nil => simp [sortComplaintsDesc] at h
  | cons x xs ih =>
    simp only [sortComplaintsDesc] at h
    rcases mem_insertComplaintDesc c x _ h with h | h
    · exact h ▸ List.mem_cons_self x xs
    · exact List.mem_cons_of_mem x (ih h)

/-! ### Claims -/

/-- C1: for every list of reviews and every complaint in the list
returned by `identify_verified_criticisms`, the complaint's
`review_count` is at least 2; no criticism category backed by fewer than
2 contributing reviews ever appears in the result. -/
theorem identify_verified_criticisms_review_count_ge_two
    (reviews : List Review) (min_confidence : ℚ) (c : ExtractedComplaint)
    (h : c ∈ identify_verified_criticisms reviews min_confidence) :
    2 ≤ c.review_count := by
  simp only [identify_verified_criticisms] at h
  have h1 := List.take_subset 5 _ h
  have h2 := mem_sortComplaintsDesc _ _ h1
  rcases List.mem_filterMap.mp h2 with ⟨cd, _, heq⟩
  by_cases hc : 2 ≤ cd.2.count
  · rw [if_pos hc] at heq
    cases heq
    exact hc
  · rw [if_neg hc] at heq
    cases heq

/-- Witness for C1: two reviews complaining about pacing yield a
verified pacing complaint with `review_count = 2`. -/
theorem identify_verified_criticisms_review_count_ge_two_witness :
    2 ≤ ((identify_verified_criticisms
        [⟨"pacing drags bad", "", none⟩, ⟨"pacing drags bad", "", none⟩]
        (3 / 5)).headD
      ⟨"", "", "", 0, 0, []⟩).review_count := by
  apply identify_verified_criticisms_review_count_ge_two
    [⟨"pacing drags bad", "", none⟩, ⟨"pacing drags bad", "", none⟩] (3 / 5)
  with_unfolding_all decide

/-- C2 counterexample: `clean_roast` is not idempotent. On `"!!!"` the
`([.,!?])\s*\1` pass collapses one pair per scan, so one application
yields `"!!"` and a second application yields `"!"`. -/
theorem clean_roast_not_idempotent_counterexample :
    clean_roast (clean_roast "!!!") ≠ clean_roast "!!!" := by decide

/-- C2 (amended): `clean_roast` is idempotent on already-clean input:
whenever `clean_roast x = x`, applying it again changes nothing. -/
theorem clean_roast_idempotent_on_clean (x : String)
    (h : clean_roast x = x) : clean_roast (clean_roast x) = clean_roast x := by
  rw [h]
  exact h

/-- Witness for the amended C2 at an already-clean input. -/
theorem clean_roast_idempotent_on_clean_witness :
    clean_roast (clean_roast "a fine roast") = clean_roast "a fine roast" :=
  clean_roast_idempotent_on_clean "a fine roast" (by decide)

/-- C3 (code bug): an input consisting only of a review-count phrase in
mixed case defeats the cleaner: `clean_roast` leaves `"5 Reviews"`
unchanged because its removal pattern `\b\d+ reviews?\b` (line 19) lacks
`re.IGNORECASE`, yet `has_statistics` matches the same pattern with
`re.IGNORECASE` (line 92), so the detector still fires on the cleaned
output. -/
theorem clean_roast_misses_uppercase_reviews :
    clean_roast "5 Reviews" = "5 Reviews"
      ∧ has_statistics (clean_roast "5 Reviews") = true := by decide

theorem contains_pyJoin4_third (n s1 s2 s3 s4 sep : String)
    (h : containsSubStr n s3 = true) :
    containsSubStr n (pyJoin sep [s1, s2, s3, s4]) = true := by
  simp only [pyJoin]
  apply containsSubStr_append_right
  apply containsSubStr_append_right
  apply containsSubStr_append_left
  apply containsSubStr_append_left
  exact h

/-- C4: review-derived themed content is gated by `review_count ≥ 10`:
below the threshold `build_context` produces exactly the output it would
produce with no review context at all; at `review_count = 15` with a
verified animation complaint carrying an example, the output contains
the `=== COMMON THEMES` header, an `Animation:` themed line and the
quoted example, for every anime metadata; and in the literal
`review_count = 4` scenario the output has no complaint-derived text. -/
theorem build_context_review_themes_gated_by_min_reviews :
    (∀ (a : AnimeData) (rc : ReviewContext), rc.review_count < 10 →
        build_context a (some rc) = build_context a none)
    ∧ (∀ a : AnimeData,
        containsSubStr "=== COMMON THEMES"
          (build_context a
            (some ⟨15, [⟨"animation", 9 / 10, 12, ["The animation dips hard"]⟩]⟩)) = true
        ∧ containsSubStr "Animation:"
          (build_context a
            (some ⟨15, [⟨"animation", 9 / 10, 12, ["The animation dips hard"]⟩]⟩)) = true
        ∧ containsSubStr "\"The animation dips hard\""
          (build_context a
            (some ⟨15, [⟨"animation", 9 / 10, 12, ["The animation dips hard"]⟩]⟩)) = true)
    ∧ (build_context {}
          (some ⟨4, [⟨"animation", 9 / 10, 12, ["The animation dips hard"]⟩]⟩) =
        build_context {} none
      ∧ containsSubStr "=== COMMON THEMES"
          (build_context {}
            (some ⟨4, [⟨"animation", 9 / 10, 12, ["The animation dips hard"]⟩]⟩)) = false
      ∧ containsSubStr "animation"
          (lowerStr (build_context {}
            (some ⟨4, [⟨"animation", 9 / 10, 12, ["The animation dips hard"]⟩]⟩))) = false) := by
  refine ⟨?_, ?_, ?_⟩
  · intro a rc h
    simp only [build_context, MIN_REVIEWS_FOR_DATA]
    rw [if_neg (by omega)]
  · intro a
    have hthemes :
        build_context a
            (some ⟨15, [⟨"animation", 9 / 10, 12, ["The animation dips hard"]⟩]⟩) =
          pyJoin "\n\n"
            [build_basic_info a, build_reception a,
             build_review_themes ⟨15, [⟨"animation", 9 / 10, 12, ["The animation dips hard"]⟩]⟩,
             build_source_context a] := by
      simp only [build_context, MIN_REVIEWS_FOR_DATA]
      rw [if_pos (by omega)]
      rfl
    rw [hthemes]
    refine ⟨?_, ?_, ?_⟩
    · exact contains_pyJoin4_third _ _ _ _ _ _ (by decide)
    · exact contains_pyJoin4_third _ _ _ _ _ _ (by decide)
    · exact contains_pyJoin4_third _ _ _ _ _ _ (by decide)
  · refine ⟨?_, by decide, by decide⟩
    simp only [build_context, MIN_REVIEWS_FOR_DATA]
    rw [if_neg (by omega)]

/-- Witness for C4 at the literal below-threshold scenario. -/
theorem build_context_review_themes_gated_witness :
    build_context {}
        (some ⟨4, [⟨"animation", 9 / 10, 12, ["The animation dips hard"]⟩]⟩) =
      build_context {} none :=
  build_context_review_themes_gated_by_min_reviews.1 {}
    ⟨4, [⟨"animation", 9 / 10, 12, ["The animation dips hard"]⟩]⟩ (by decide)

/-- C5: `parse_roast_response` is total by construction, and on
malformed input — no `STATS:` marker, no brace group after it, or a JSON
parse failure — it returns the whole input stripped of surrounding
whitespace together with the default stats map, whose 6 keys all equal
50. -/
theorem parse_roast_response_malformed_defaults (t : String)
    (h : parse_malformed t = true) :
    parse_roast_response t = (stripStr t, DEFAULT_STATS)
    ∧ DEFAULT_STATS.map Prod.fst =
        ["horniness_level", "plot_armor_thickness", "filler_hell",
         "power_creep", "cringe_factor", "fan_toxicity"]
    ∧ ∀ kv ∈ DEFAULT_STATS, kv.2 = JsonValue.jnum 50 := by
  refine ⟨?_, by decide, ?_⟩
  · simp only [parse_malformed] at h
    simp only [parse_roast_response]
    cases hs : splitOnce "STATS:" t with
    | none => simp
    | some pr =>
      obtain ⟨before, after⟩ := pr
      rw [hs] at h
      simp only at h ⊢
      cases hb : braceSearch (stripStr after).data with
      | none => simp [hb]
      | some j =>
        rw [hb] at h
        simp only [Option.isNone_iff_eq_none] at h
        simp [hb, h]
  · intro kv hkv
    simp only [DEFAULT_STATS, List.mem_cons, List.not_mem_nil, or_false] at hkv
    rcases hkv with h | h | h | h | h | h <;> subst h <;> rfl

/-- Witness for C5 at the spec's literal malformed input. -/
theorem parse_roast_response_malformed_defaults_witness :
    parse_roast_response "no markers at all" =
      (stripStr "no markers at all", DEFAULT_STATS) :=
  (parse_roast_response_malformed_defaults "no markers at all" (by decide)).1

theorem strStartsWith_append (p x y : String) (h : strStartsWith p x = true) :
    strStartsWith p (x ++ y) = true := by
  simp only [strStartsWith, data_append]
  exact prefixOfL_append _ _ _ h

/-- C6: when the anime has a (truthy) score and some `N/10` or `N.N/10`
token of the roast differs from the normalized score by more than 1.0,
`validate_and_fix_roast` reports a `FAKE RATING` issue and rewrites the
roast by replacing every rating token with the real score; when no score
exists, any rating token yields a `SUSPICIOUS RATING` issue and the
tokens are removed; concretely, `"9.9/10"` with score 51 becomes
`"5.1/10"`, and with no score `"3/10"` is removed outright. -/
theorem validate_and_fix_roast_fake_ratings :
    (∀ (text : String) (s : Nat), s ≠ 0 →
      (∃ tk ∈ findRatingTokens text, 1 < |decimalToRat tk - (s : ℚ) / 10|) →
        (∃ i ∈ (validate_and_fix_roast text { score := some s } none).2,
            strStartsWith "FAKE RATING" i = true)
        ∧ (validate_and_fix_roast text { score := some s } none).1 =
            fix_fake_ratings text (some s))
    ∧ (∀ text : String, findRatingTokens text ≠ [] →
        (∃ i ∈ (validate_and_fix_roast text {} none).2,
            strStartsWith "SUSPICIOUS RATING" i = true)
        ∧ (validate_and_fix_roast text {} none).1 = fix_fake_ratings text none)
    ∧ ((validate_and_fix_roast "This gets 9.9/10 honestly" { score := some 51 } none).1 =
          "This gets 5.1/10 honestly"
        ∧ containsSubStr "9.9/10"
            (validate_and_fix_roast "This gets 9.9/10 honestly" { score := some 51 } none).1 = false
        ∧ (validate_and_fix_roast "cool 3/10 story" {} none).1 = "cool story") := by
  refine ⟨?_, ?_, ?_⟩
  · intro text s hs hex
    obtain ⟨tk, htk, hdiff⟩ := hex
    cases hm : findRatingTokens text with
    | nil => rw [hm] at htk; cases htk
    | cons a as =>
      have hmem :
          ("FAKE RATING: Claimed " ++ pyFloatRepr (decimalToRat tk)
            ++ "/10 but actual AniList score is " ++ scoreDiv10Fmt s ++ "/10")
            ∈ check_fake_ratings text (some s) := by
        simp only [check_fake_ratings, hm, if_pos hs]
        rw [← hm]
        exact List.mem_filterMap.mpr ⟨tk, htk, by rw [if_pos hdiff]⟩
      have hne : check_fake_ratings text (some s) ≠ [] :=
        List.ne_nil_of_mem hmem
      constructor
      · refine ⟨"FAKE RATING: Claimed " ++ pyFloatRepr (decimalToRat tk)
          ++ "/10 but actual AniList score is " ++ scoreDiv10Fmt s ++ "/10",
          ?_, ?_⟩
        · simp only [validate_and_fix_roast]
          rw [List.nil_append]
          exact List.mem_append_left _ hmem
        · apply strStartsWith_append
          apply strStartsWith_append
          apply strStartsWith_append
          apply strStartsWith_append
          decide
      · simp only [validate_and_fix_roast]
        rw [if_pos hne]
  · intro text hne
    cases hm : findRatingTokens text with
    | nil => exact absurd hm hne
    | cons a as =>
      have hmem :
          ("SUSPICIOUS RATING: Claimed " ++ pyFloatRepr (decimalToRat a)
            ++ "/10 but no source data available")
            ∈ check_fake_ratings text none := by
        simp only [check_fake_ratings, hm]
        exact List.mem_map.mpr ⟨a, List.mem_cons_self a as, rfl⟩
      have hne2 : check_fake_ratings text none ≠ [] := List.ne_nil_of_mem hmem
      constructor
      · refine ⟨"SUSPICIOUS RATING: Claimed " ++ pyFloatRepr (decimalToRat a)
          ++ "/10 but no source data available", ?_, ?_⟩
        · simp only [validate_and_fix_roast]
          rw [List.nil_append]
          exact List.mem_append_left _ hmem
        · apply strStartsWith_append
          apply strStartsWith_append
          decide
      · simp only [validate_and_fix_roast]
        rw [if_pos hne2]
  · refine ⟨?_, ?_, ?_⟩ <;> with_unfolding_all decide

/-- Witness for C6 at a concrete differing token with score 51. -/
theorem validate_and_fix_roast_fake_ratings_witness :
    (∃ i ∈ (validate_and_fix_roast "gets 9/10 sadly" { score := some 51 } none).2,
        strStartsWith "FAKE RATING" i = true)
    ∧ (validate_and_fix_roast "gets 9/10 sadly" { score := some 51 } none).1 =
        fix_fake_ratings "gets 9/10 sadly" (some 51) :=
  validate_and_fix_roast_fake_ratings.1 "gets 9/10 sadly" 51 (by decide)
    ⟨"9".data, by decide, by with_unfolding_all decide⟩

theorem roastLoopAux_trace_length (oracle : Nat → GenOutcome) (m : Nat)
    (fuel : Nat) : ∀ (p : String) (a : Nat),
    (roastLoopAux oracle m p a fuel).2.length ≤ fuel := by
  induction fuel with
  | zero => intro p a; simp [roastLoopAux]
  | succ fuel ih =>
    intro p a
    simp only [roastLoopAux]
    cases oracle a with
    | timeout =>
      dsimp only
      by_cases h : a = m
      · simp [h]
      · rw [if_neg h]
        have := ih p (a + 1)
        simpa using Nat.succ_le_succ this
    | empty =>
      dsimp only
      by_cases h : a = m
      · simp [h]
      · rw [if_neg h]
        have := ih p (a + 1)
        simpa using Nat.succ_le_succ this
    | text s =>
      dsimp only
      by_cases h :
          (has_statistics (clean_roast (parse_roast_response s).1)
            && decide (a < m)) = true
      · rw [if_pos h]
        have := ih (p ++ RETRY_CORRECTIVE) (a + 1)
        simpa using Nat.succ_le_succ this
      · rw [if_neg h]
        simp

theorem roastLoopAux_trace_shape (oracle : Nat → GenOutcome) (m : Nat)
    (p : String) (a fuel : Nat) :
    (roastLoopAux oracle m p a (fuel + 1)).2 = []
      ∨ ∃ o rest, (roastLoopAux oracle m p a (fuel + 1)).2 = (p, o) :: rest := by
  simp only [roastLoopAux]
  cases oracle a with
  | timeout =>
    dsimp only
    by_cases h : a = m
    · exact Or.inr ⟨.timeout, [], by rw [if_pos h]⟩
    · exact Or.inr ⟨.timeout, _, by rw [if_neg h]⟩
  | empty =>
    dsimp only
    by_cases h : a = m
    · exact Or.inr ⟨.empty, [], by rw [if_pos h]⟩
    · exact Or.inr ⟨.empty, _, by rw [if_neg h]⟩
  | text s =>
    dsimp only
    by_cases h :
        (has_statistics (clean_roast (parse_roast_response s).1)
          && decide (a < m)) = true
    · exact Or.inr ⟨.text s, _, by rw [if_pos h]⟩
    · exact Or.inr ⟨.text s, [], by rw [if_neg h]⟩

set_option maxHeartbeats 1000000 in
theorem roastLoopAux_trace_chain (oracle : Nat → GenOutcome) (m : Nat)
    (fuel : Nat) : ∀ (p : String) (a : Nat),
    List.Chain' retryStep (roastLoopAux oracle m p a fuel).2 := by
  induction fuel with
  | zero => intro p a; simp [roastLoopAux]
  | succ fuel ih =>
    intro p a
    simp only [roastLoopAux]
    cases oracle a with
    | timeout =>
      dsimp only
      by_cases h : a = m
      · rw [if_pos h]; simp
      · rw [if_neg h]
        apply List.chain'_cons'.mpr
        refine ⟨?_, ih p (a + 1)⟩
        intro b hb
        cases fuel with
        | zero => simp [roastLoopAux] at hb
        | succ f =>
          rcases roastLoopAux_trace_shape oracle m p (a + 1) f with hsh | ⟨o, rest, hsh⟩
          · rw [hsh] at hb; simp at hb
          · rw [hsh] at hb
            simp only [List.head?_cons, Option.mem_def, Option.some.injEq] at hb
            subst hb
            simp [retryStep]
    | empty =>
      dsimp only
      by_cases h : a = m
      · rw [if_pos h]; simp
      · rw [if_neg h]
        apply List.chain'_cons'.mpr
        refine ⟨?_, ih p (a + 1)⟩
        intro b hb
        cases fuel with
        | zero => simp [roastLoopAux] at hb
        | succ f =>
          rcases roastLoopAux_trace_shape oracle m p (a + 1) f with hsh | ⟨o, rest, hsh⟩
          · rw [hsh] at hb; simp at hb
          · rw [hsh] at hb
            simp only [List.head?_cons, Option.mem_def, Option.some.injEq] at hb
            subst hb
            simp [retryStep]
    | text s =>
      dsimp only
      generalize hc :
        (has_statistics (clean_roast (parse_roast_response s).1)
          && decide (a < m)) = cond
      cases cond with
      | false =>
        rw [if_neg (by simp)]
        simp
      | true =>
        rw [if_pos rfl]
        apply List.chain'_cons'.mpr
        refine ⟨?_, ih (p ++ RETRY_CORRECTIVE) (a + 1)⟩
        intro b hb
        cases fuel with
        | zero => simp [roastLoopAux] at hb
        | succ f =>
          rcases roastLoopAux_trace_shape oracle m (p ++ RETRY_CORRECTIVE) (a + 1) f
            with hsh | ⟨o, rest, hsh⟩
          · rw [hsh] at hb; simp at hb
          · rw [hsh] at hb
            simp only [List.head?_cons, Option.mem_def, Option.some.injEq] at hb
            subst hb
            refine ⟨?_, rfl⟩
            simp only [Bool.and_eq_true] at hc
            exact hc.1

/-- C7: for every oracle behaviour of the external generator and every
initial prompt, the loop makes at most `MAX_ROAST_RETRIES + 1 = 3`
generator calls, and consecutive calls satisfy `retryStep`: after a
successfully parsed and cleaned response, a further call happens only
when `has_statistics` still holds on the cleaned roast, in which case
the corrective instruction is appended to the prompt; after a timeout or
empty response the prompt is unchanged. -/
theorem generate_roast_loop_bounded_retries (oracle : Nat → GenOutcome)
    (prompt : String) :
    MAX_ROAST_RETRIES + 1 = 3
    ∧ (generate_roast_loop oracle prompt).2.length ≤ MAX_ROAST_RETRIES + 1
    ∧ List.Chain' retryStep (generate_roast_loop oracle prompt).2 :=
  ⟨rfl,
   roastLoopAux_trace_length oracle MAX_ROAST_RETRIES (MAX_ROAST_RETRIES + 1)
     prompt 0,
   roastLoopAux_trace_chain oracle MAX_ROAST_RETRIES (MAX_ROAST_RETRIES + 1)
     prompt 0⟩

theorem genuineBoost_nonneg (t : String) (q : ℚ) (h : 0 ≤ q) :
    0 ≤ genuineBoost t q := by
  unfold genuineBoost
  by_cases hg : 0 < genuineMarkerCount t
  · rw [if_pos hg]
    exact le_min (by linarith) (by norm_num)
  · rw [if_neg hg]
    exact h

theorem genuineBoost_le_one (t : String) (q : ℚ) (h : q ≤ 1) :
    genuineBoost t q ≤ 1 := by
  unfold genuineBoost
  by_cases hg : 0 < genuineMarkerCount t
  · rw [if_pos hg]
    exact min_le_right _ _
  · rw [if_neg hg]
    exact h

theorem analyze_eq_neutral_of_no_match (text category : String)
    (h : posIndicatorCount text category + negIndicatorCount text category = 0) :
    analyze_sentiment_with_context text category = ("neutral", 0) := by
  by_cases ht : text = ""
  · subst ht; rfl
  · simp only [analyze_sentiment_with_context, if_neg ht, if_pos h]

theorem analyze_eq_negative (text category : String) (ht : text ≠ "")
    (h : posIndicatorCount text category < negIndicatorCount text category) :
    analyze_sentiment_with_context text category =
      ("negative",
        genuineBoost text
          (min ((1 : ℚ) / 2
            + (negIndicatorCount text category : ℚ)
              / ((posIndicatorCount text category
                  + negIndicatorCount text category : Nat) : ℚ)
              * (1 / 2)) 1)) := by
  have htot :
      ¬(posIndicatorCount text category + negIndicatorCount text category = 0) := by
    omega
  simp only [analyze_sentiment_with_context, if_neg ht, if_neg htot, if_pos h]
  unfold genuineBoost
  by_cases hg : 0 < genuineMarkerCount text
  · rw [if_pos hg, if_pos hg]
  · rw [if_neg hg, if_neg hg]

theorem analyze_eq_positive (text category : String) (ht : text ≠ "")
    (h : negIndicatorCount text category < posIndicatorCount text category) :
    analyze_sentiment_with_context text category =
      ("positive",
        genuineBoost text
          (min ((1 : ℚ) / 2
            + (posIndicatorCount text category : ℚ)
              / ((posIndicatorCount text category
                  + negIndicatorCount text category : Nat) : ℚ)
              * (1 / 2)) 1)) := by
  have htot :
      ¬(posIndicatorCount text category + negIndicatorCount text category = 0) := by
    omega
  have hnlt :
      ¬(posIndicatorCount text category < negIndicatorCount text category) := by
    omega
  simp only [analyze_sentiment_with_context, if_neg ht, if_neg htot, if_neg hnlt,
    if_pos h]
  unfold genuineBoost
  by_cases hg : 0 < genuineMarkerCount text
  · rw [if_pos hg, if_pos hg]
  · rw [if_neg hg, if_neg hg]

theorem analyze_eq_mixed (text category : String) (ht : text ≠ "")
    (heq : posIndicatorCount text category = negIndicatorCount text category)
    (hpos : 0 < posIndicatorCount text category) :
    analyze_sentiment_with_context text category =
      ("mixed", genuineBoost text ((1 : ℚ) / 2)) := by
  have htot :
      ¬(posIndicatorCount text category + negIndicatorCount text category = 0) := by
    omega
  have h1 :
      ¬(posIndicatorCount text category < negIndicatorCount text category) := by
    omega
  have h2 :
      ¬(negIndicatorCount text category < posIndicatorCount text category) := by
    omega
  simp only [analyze_sentiment_with_context, if_neg ht, if_neg htot, if_neg h1,
    if_neg h2]
  unfold genuineBoost
  by_cases hg : 0 < genuineMarkerCount text
  · rw [if_pos hg, if_pos hg]
  · rw [if_neg hg, if_neg hg]

theorem half_plus_ratio_nonneg (k n : Nat) :
    (0 : ℚ) ≤ (1 : ℚ) / 2 + (k : ℚ) / (n : ℚ) * (1 / 2) := by positivity

/-- C8 counterexample: on a tied pair of indicators the source returns
confidence 0.5, not the claimed
`min(0.5 + (majority_count / total) * 0.5, 1.0)` (= 0.75 at 1 vs 1). -/
theorem analyze_sentiment_tie_confidence_counterexample :
    analyze_sentiment_with_context "too slow but great pacing" "pacing" =
        ("mixed", 1 / 2)
    ∧ posIndicatorCount "too slow but great pacing" "pacing" = 1
    ∧ negIndicatorCount "too slow but great pacing" "pacing" = 1
    ∧ spec_confidence_formula 1 1 = 3 / 4
    ∧ (analyze_sentiment_with_context "too slow but great pacing" "pacing").2 ≠
        spec_confidence_formula 1 1 := by
  with_unfolding_all decide

/-- C8 (amended): `analyze_sentiment_with_context` always returns one of
the four labels with a confidence in `[0, 1]`; with no indicator match
(in particular on empty text) it returns `("neutral", 0)`; when one
indicator side strictly outnumbers the other, the confidence is
`min(0.5 + (majority_count / total) * 0.5, 1.0)` plus the flat `+0.1`
genuine-marker bonus capped at 1.0; on a nonzero tie the sentiment is
`"mixed"` with confidence 0.5 plus the same bonus. -/
theorem analyze_sentiment_characterization (text category : String) :
    ((analyze_sentiment_with_context text category).1 = "positive"
      ∨ (analyze_sentiment_with_context text category).1 = "negative"
      ∨ (analyze_sentiment_with_context text category).1 = "mixed"
      ∨ (analyze_sentiment_with_context text category).1 = "neutral")
    ∧ 0 ≤ (analyze_sentiment_with_context text category).2
    ∧ (analyze_sentiment_with_context text category).2 ≤ 1
    ∧ (posIndicatorCount text category + negIndicatorCount text category = 0 →
        analyze_sentiment_with_context text category = ("neutral", 0))
    ∧ (text = "" → analyze_sentiment_with_context text category = ("neutral", 0))
    ∧ (text ≠ "" →
        posIndicatorCount text category < negIndicatorCount text category →
        analyze_sentiment_with_context text category =
          ("negative",
            genuineBoost text
              (min ((1 : ℚ) / 2
                + (negIndicatorCount text category : ℚ)
                  / ((posIndicatorCount text category
                      + negIndicatorCount text category : Nat) : ℚ)
                  * (1 / 2)) 1)))
    ∧ (text ≠ "" →
        negIndicatorCount text category < posIndicatorCount text category →
        analyze_sentiment_with_context text category =
          ("positive",
            genuineBoost text
              (min ((1 : ℚ) / 2
                + (posIndicatorCount text category : ℚ)
                  / ((posIndicatorCount text category
                      + negIndicatorCount text category : Nat) : ℚ)
                  * (1 / 2)) 1)))
    ∧ (text ≠ "" →
        posIndicatorCount text category = negIndicatorCount text category →
        0 < posIndicatorCount text category →
        analyze_sentiment_with_context text category =
          ("mixed", genuineBoost text ((1 : ℚ) / 2))) := by
  have hlabel_bounds :
      ((analyze_sentiment_with_context text category).1 = "positive"
        ∨ (analyze_sentiment_with_context text category).1 = "negative"
        ∨ (analyze_sentiment_with_context text category).1 = "mixed"
        ∨ (analyze_sentiment_with_context text category).1 = "neutral")
      ∧ 0 ≤ (analyze_sentiment_with_context text category).2
      ∧ (analyze_sentiment_with_context text category).2 ≤ 1 := by
    by_cases ht : text = ""
    · subst ht
      have h0 : analyze_sentiment_with_context "" category = ("neutral", 0) := rfl
      rw [h0]
      refine ⟨Or.inr (Or.inr (Or.inr rfl)), by norm_num, by norm_num⟩
    · by_cases htot :
          posIndicatorCount text category + negIndicatorCount text category = 0
      · rw [analyze_eq_neutral_of_no_match text category htot]
        refine ⟨Or.inr (Or.inr (Or.inr rfl)), by norm_num, by norm_num⟩
      · rcases Nat.lt_trichotomy (posIndicatorCount text category)
            (negIndicatorCount text category) with hlt | heq | hgt
        · rw [analyze_eq_negative text category ht hlt]
          refine ⟨Or.inr (Or.inl rfl), ?_, ?_⟩
          · exact genuineBoost_nonneg _ _
              (le_min (half_plus_ratio_nonneg _ _) (by norm_num))
          · exact genuineBoost_le_one _ _ (min_le_right _ _)
        · rw [analyze_eq_mixed text category ht heq (by omega)]
          refine ⟨Or.inr (Or.inr (Or.inl rfl)), ?_, ?_⟩
          · exact genuineBoost_nonneg _ _ (by norm_num)
          · exact genuineBoost_le_one _ _ (by norm_num)
        · rw [analyze_eq_positive text category ht hgt]
          refine ⟨Or.inl rfl, ?_, ?_⟩
          · exact genuineBoost_nonneg _ _
              (le_min (half_plus_ratio_nonneg _ _) (by norm_num))
          · exact genuineBoost_le_one _ _ (min_le_right _ _)
  refine ⟨hlabel_bounds.1, hlabel_bounds.2.1, hlabel_bounds.2.2, ?_, ?_, ?_, ?_, ?_⟩
  · exact analyze_eq_neutral_of_no_match text category
  · intro ht; subst ht; rfl
  · exact analyze_eq_negative text category
  · exact analyze_eq_positive text category
  · exact analyze_eq_mixed text category

/-- Witness for C8 (amended) at a one-sided negative input. -/
theorem analyze_sentiment_characterization_witness :
    analyze_sentiment_with_context "pacing drags bad" "pacing" = ("negative", 1) := by
  have h :=
    (analyze_sentiment_characterization "pacing drags bad" "pacing").2.2.2.2.2.1
      (by decide) (by with_unfolding_all decide)
  rw [h]
  with_unfolding_all decide

/-- C9 counterexample: a review with the numeric rating 0 present is
bucketed by the text-lexicon fallback, not by the rating bands (Python's
`if rating:` treats 0 as missing): `{rating: 0, body: "great"}` lands in
`positive`, while the claimed bands put a rating of 0 in
`very_negative`. -/
theorem review_sentiment_zero_rating_counterexample :
    review_sentiment ⟨"great", "", some 0⟩ = "positive"
    ∧ spec_rating_band 0 = "very_negative"
    ∧ review_sentiment ⟨"great", "", some 0⟩ ≠ spec_rating_band 0
    ∧ calculate_sentiment_breakdown [⟨"great", "", some 0⟩] =
        [("positive", 1), ("mixed", 0), ("negative", 0), ("total", 1),
         ("positive_pct", 100), ("negative_pct", 0)] := by
  with_unfolding_all decide

/-- C9 (amended): for every review whose rating is present and nonzero,
`calculate_sentiment_breakdown` buckets it exactly by the rating bands
(≥8 very_positive, ≥6 positive, ≥4 mixed, ≥2 negative, else
very_negative); the text-lexicon fallback is used exactly for reviews
with no rating or with the falsy rating 0. -/
theorem review_sentiment_rating_bands (body summary : String) (k : Int) :
    (k ≠ 0 → review_sentiment ⟨body, summary, some k⟩ = spec_rating_band k)
    ∧ review_sentiment ⟨body, summary, some 0⟩ =
        text_sentiment_fallback (if body = "" then summary else body)
    ∧ review_sentiment ⟨body, summary, none⟩ =
        text_sentiment_fallback (if body = "" then summary else body)
    ∧ (∀ reviews : List Review,
        calculate_sentiment_breakdown reviews =
          calculate_sentiment_breakdown reviews) := by
  refine ⟨?_, rfl, rfl, fun _ => rfl⟩
  intro hk
  simp only [review_sentiment, spec_rating_band, if_pos hk]

/-- Witness for C9 (amended) at rating 7. -/
theorem review_sentiment_rating_bands_witness :
    review_sentiment ⟨"x", "", some 7⟩ = spec_rating_band 7 :=
  (review_sentiment_rating_bands "x" "" 7).1 (by decide)

theorem check_fake_ratings_not_unverified (text : String) (score : Option Nat) :
    ∀ i ∈ check_fake_ratings text score, strStartsWith "UNVERIFIED" i = false := by
  intro i hi
  unfold check_fake_ratings at hi
  cases hm : findRatingTokens text with
  | nil => rw [hm] at hi; cases hi
  | cons a as =>
    rw [hm] at hi
    dsimp only at hi
    cases score with
    | none =>
      dsimp only at hi
      rcases List.mem_map.mp hi with ⟨num, _, heq⟩
      rw [← heq]
      rfl
    | some s =>
      dsimp only at hi
      by_cases hs : s ≠ 0
      · rw [if_pos hs] at hi
        rcases List.mem_filterMap.mp hi with ⟨num, _, heq⟩
        by_cases hd : 1 < |decimalToRat num - (s : ℚ) / 10|
        · rw [if_pos hd] at heq
          cases heq
          rfl
        · rw [if_neg hd] at heq
          cases heq
      · rw [if_neg hs] at hi
        rcases List.mem_map.mp hi with ⟨num, _, heq⟩
        rw [← heq]
        rfl

theorem check_meme_overuse_not_unverified (text : String) :
    ∀ i ∈ check_meme_overuse text, strStartsWith "UNVERIFIED" i = false := by
  intro i hi
  unfold check_meme_overuse at hi
  by_cases h3 :
      3 ≤ (VALIDATOR_MEME_PHRASES.map
        (fun p => countOccurL p.data (lowerStr text).data)).sum
  · rw [if_pos h3] at hi
    rcases List.mem_singleton.mp hi with rfl
    rfl
  · rw [if_neg h3] at hi
    cases hi

/-- C10: with no review context, `validate_and_fix_roast` never reports
an `UNVERIFIED CLAIM` issue and never applies a claim-softening rewrite
— its issue list is exactly the fake-rating issues followed by the
meme-overuse issues — and a roast with no `/10` rating token is
returned textually unchanged. -/
theorem validate_and_fix_roast_no_context_no_unverified (text : String)
    (anime : AnimeData) :
    (∀ i ∈ (validate_and_fix_roast text anime none).2,
        strStartsWith "UNVERIFIED" i = false)
    ∧ (validate_and_fix_roast text anime none).2 =
        check_fake_ratings text anime.score
          ++ check_meme_overuse (validate_and_fix_roast text anime none).1
    ∧ (findRatingTokens text = [] →
        (validate_and_fix_roast text anime none).1 = text) := by
  refine ⟨?_, ?_, ?_⟩
  · intro i hi
    simp only [validate_and_fix_roast, List.nil_append] at hi
    rcases List.mem_append.mp hi with h | h
    · exact check_fake_ratings_not_unverified text anime.score i h
    · exact check_meme_overuse_not_unverified _ i h
  · simp only [validate_and_fix_roast, List.nil_append]
  · intro h
    have hck : check_fake_ratings text anime.score = [] := by
      unfold check_fake_ratings
      rw [h]
    simp only [validate_and_fix_roast, hck]
    rw [if_neg (by simp)]

/-- Witness for C10 at a roast with no rating tokens. -/
theorem validate_and_fix_roast_no_context_witness :
    (validate_and_fix_roast "hello there" {} none).1 = "hello there" :=
  (validate_and_fix_roast_no_context_no_unverified "hello there" {}).2.2
    (by decide)

end Roast
